import Mathlib

/-!
Verification development for the research-aggregation service.

The definitions below are a shallow embedding of the Python source:
`mcp_client.py` (aggregator, normalizers, completeness, conflict markers,
news/sentiment trimming, subprocess tool-response parsing), `app.py`
(task lifecycle and progress callback) and
`tests/mcp_reliability/circuit_breaker.py` (per-provider circuit breaker).

JSON-like values are modelled by `JVal`; Python runtime semantics that the
code relies on (truthiness, the `in` operator, `dict.get`, `==`,
exceptions such as `AttributeError` and `TypeError`) are modelled by small
helper functions returning `Except String _` where the Python code can
raise.  Wall-clock timestamps are modelled as rationals; exception message
texts are modelled loosely (the code never inspects them).
-/

namespace Research

/-- JSON-like runtime values, as produced by `json.loads` and passed
between the aggregator and its workers.  Objects are association lists
with distinct keys (Python dicts); insertion order is significant because
Python dicts preserve it. -/
inductive JVal where
  | null : JVal
  | bool (b : Bool) : JVal
  | num (q : ℚ) : JVal
  | str (s : String) : JVal
  | arr (elems : List JVal) : JVal
  | obj (fields : List (String × JVal)) : JVal

/-- Lookup of a key in an object's field list (first match). -/
def jlookup (k : String) : List (String × JVal) → Option JVal
  | [] => none
  | (k2, v) :: rest => if k2 = k then some v else jlookup k rest

/-- Python dict assignment `d[k] = v`: replaces in place if the key
exists, appends otherwise. -/
def setKey : List (String × JVal) → String → JVal → List (String × JVal)
  | [], k, v => [(k, v)]
  | (k2, w) :: rest, k, v =>
      if k2 = k then (k, v) :: rest else (k2, w) :: setKey rest k v

/-- Python truthiness: `None`, `False`, `0`, `""`, `[]` and the empty dict
are falsy; everything else is truthy. -/
def JVal.falsy : JVal → Bool
  | .null => true
  | .bool b => !b
  | .num q => q = 0
  | .str s => s.isEmpty
  | .arr l => l.isEmpty
  | .obj l => l.isEmpty

/-- Python expression `a or b` (on already-evaluated operands). -/
def pyOr (a b : JVal) : JVal := if a.falsy then b else a

/-- Whether the value is a dict (`isinstance(v, dict)`). -/
def JVal.isDict : JVal → Bool
  | .obj _ => true
  | _ => false

/-- Whether the value is `None`. -/
def JVal.isNull : JVal → Bool
  | .null => true
  | _ => false

/-- Whether the value is an `int` or `float` (Python `bool` is a subclass
of `int`, so `True`/`False` match as well). -/
def JVal.isNumLike : JVal → Bool
  | .num _ => true
  | .bool _ => true
  | _ => false

/-- Whether the value is a string. -/
def JVal.isStr : JVal → Bool
  | .str _ => true
  | _ => false

/-- Substring containment, for the Python expression `pat in s` on
strings (with a non-empty pattern). -/
def strContains (hay pat : String) : Bool := (hay.splitOn pat).length ≠ 1

/-- Python membership test `k in v` for a string key `k`.  Dict: key
lookup.  List: membership (only equal strings can match a string key).
String: substring test.  Other values raise `TypeError`. -/
def pyIn (k : String) : JVal → Except String Bool
  | .obj fs => .ok (jlookup k fs).isSome
  | .arr l => .ok (l.any fun v => match v with | .str s => s = k | _ => false)
  | .str s => .ok (strContains s k)
  | _ => .error "TypeError: argument of type is not iterable"

/-- Python `v.get(k, default)`: raises `AttributeError` when `v` is not a
dict. -/
def pyGet (v : JVal) (k : String) (default : JVal) : Except String JVal :=
  match v with
  | .obj fs => .ok ((jlookup k fs).getD default)
  | _ => .error "AttributeError: object has no attribute get"

/-- Python subscript `v[k]` with a string key: `KeyError` on a dict
missing the key, `TypeError` on anything that is not a dict. -/
def pyGetItem (v : JVal) (k : String) : Except String JVal :=
  match v with
  | .obj fs =>
      match jlookup k fs with
      | some w => .ok w
      | none => .error "KeyError"
  | _ => .error "TypeError: value is not subscriptable by str"

/-- Loose model of Python `str()`; the aggregator only embeds these
strings into error payloads and never inspects them. -/
def pyStr : JVal → String
  | .null => "None"
  | .bool true => "True"
  | .bool false => "False"
  | .num q => toString q
  | .str s => s
  | .arr _ => "pylist"
  | .obj _ => "pydict"

mutual

/-- Python `==` on JSON-like values.  Numbers compare by value and
`bool` compares equal to `0`/`1` (it is an `int` subclass); strings
compare by content; lists elementwise; dicts by key set and values
(order-insensitive, assuming distinct keys); mixed kinds are unequal. -/
def pyEq : JVal → JVal → Bool
  | .null, .null => true
  | .bool a, .bool b => a = b
  | .bool a, .num q => (if a then (1 : ℚ) else 0) = q
  | .num q, .bool b => q = (if b then (1 : ℚ) else 0)
  | .num a, .num b => a = b
  | .str a, .str b => a = b
  | .arr a, .arr b => pyEqList a b
  | .obj a, .obj b => a.length = b.length && pyEqFields a b
  | _, _ => false

/-- Elementwise Python `==` on lists. -/
def pyEqList : List JVal → List JVal → Bool
  | [], [] => true
  | x :: xs, y :: ys => pyEq x y && pyEqList xs ys
  | _, _ => false

/-- One-sided dict inclusion used by `pyEq` (with equal lengths and
distinct keys this is Python dict equality). -/
def pyEqFields : List (String × JVal) → List (String × JVal) → Bool
  | [], _ => true
  | (k, v) :: rest, b => pyEqFieldLookup k v b && pyEqFields rest b

/-- Find key `k` in `b` and compare its value with `v`. -/
def pyEqFieldLookup : String → JVal → List (String × JVal) → Bool
  | _, _, [] => false
  | k, v, (k2, w) :: rest => if k = k2 then pyEq v w else pyEqFieldLookup k v rest

end

/-- Python subtraction `a - b` on numbers (`bool` coerces to `0`/`1`);
anything else raises `TypeError`. -/
def pySub (a b : JVal) : Except String ℚ :=
  match a, b with
  | .num x, .num y => .ok (x - y)
  | .num x, .bool y => .ok (x - (if y then 1 else 0))
  | .bool x, .num y => .ok ((if x then (1 : ℚ) else 0) - y)
  | .bool x, .bool y => .ok ((if x then (1 : ℚ) else 0) - (if y then 1 else 0))
  | _, _ => .error "TypeError: unsupported operand types for minus"

/-- Python `len(v)` for lists, strings and dicts; `TypeError` otherwise. -/
def pyLen : JVal → Except String ℕ
  | .arr l => .ok l.length
  | .str s => .ok s.length
  | .obj fs => .ok fs.length
  | _ => .error "TypeError: object has no len"

/-- Python iteration over a value (as done by `sorted(v, ...)` or
`list.extend(v)`): lists yield their elements, strings their characters
(as one-character strings), dicts their keys; other values raise
`TypeError`. -/
def pyIterate : JVal → Except String (List JVal)
  | .arr l => .ok l
  | .str s => .ok (s.toList.map fun c => .str (String.singleton c))
  | .obj fs => .ok (fs.map fun p => .str p.1)
  | _ => .error "TypeError: object is not iterable"

/-! ## Circuit breaker (`tests/mcp_reliability/circuit_breaker.py`)

Monotonic wall-clock instants are modelled as rationals that are supplied
to each operation (Python reads `time.monotonic()` at the corresponding
program points). -/

/-- States of the per-provider circuit breaker. -/
inductive CircuitState where
  | CLOSED : CircuitState
  | OPEN : CircuitState
  | HALF_OPEN : CircuitState
deriving DecidableEq, Repr

/-- `CircuitBreakerConfig` thresholds. -/
structure CircuitBreakerConfig where
  failure_threshold : ℕ
  success_threshold : ℕ
  half_open_timeout : ℚ
deriving Repr

/-- The default configuration (`failure_threshold = 5`,
`success_threshold = 3`, `half_open_timeout = 30.0`). -/
def defaultCBConfig : CircuitBreakerConfig :=
  { failure_threshold := 5, success_threshold := 3, half_open_timeout := 30 }

/-- Mutable state of one `CircuitBreaker` (the `name` field is omitted:
it is only used for logging). -/
structure CircuitBreaker where
  config : CircuitBreakerConfig
  state : CircuitState
  failure_count : ℕ
  success_count : ℕ
  last_failure_time : Option ℚ
  last_state_change : ℚ
deriving Repr

/-- `CircuitBreaker._transition(new_state)` evaluated at monotonic time
`now`: if the state changes, record the new state and timestamp, then
reset both counters when entering CLOSED and only `success_count` when
entering HALF_OPEN (entering OPEN resets neither). -/
def CircuitBreaker.transition (b : CircuitBreaker) (now : ℚ)
    (new_state : CircuitState) : CircuitBreaker :=
  if b.state ≠ new_state then
    let b2 := { b with state := new_state, last_state_change := now }
    match new_state with
    | .CLOSED => { b2 with failure_count := 0, success_count := 0 }
    | .HALF_OPEN => { b2 with success_count := 0 }
    | .OPEN => b2
  else b

/-- `CircuitBreaker.allow_request()` at monotonic time `now`; returns the
boolean result together with the updated breaker.  In OPEN state the
`if self.last_failure_time:` guard is a truthiness test, so both `None`
and `0.0` fail it. -/
def CircuitBreaker.allow_request (b : CircuitBreaker) (now : ℚ) :
    Bool × CircuitBreaker :=
  match b.state with
  | .CLOSED => (true, b)
  | .OPEN =>
      match b.last_failure_time with
      | some t =>
          if t ≠ 0 then
            if now - t ≥ b.config.half_open_timeout then
              (true, b.transition now .HALF_OPEN)
            else (false, b)
          else (false, b)
      | none => (false, b)
  | .HALF_OPEN => (true, b)

/-- `CircuitBreaker.record_success()`. -/
def CircuitBreaker.record_success (b : CircuitBreaker) (now : ℚ) :
    CircuitBreaker :=
  match b.state with
  | .HALF_OPEN =>
      let b2 := { b with success_count := b.success_count + 1 }
      if b2.success_count ≥ b2.config.success_threshold then
        b2.transition now .CLOSED
      else b2
  | .CLOSED => { b with failure_count := b.failure_count - 1 }
  | .OPEN => b

/-- `CircuitBreaker.record_failure()` at monotonic time `now` (the
`error` argument is only logged). -/
def CircuitBreaker.record_failure (b : CircuitBreaker) (now : ℚ) :
    CircuitBreaker :=
  let b1 := { b with last_failure_time := some now }
  match b1.state with
  | .CLOSED =>
      let b2 := { b1 with failure_count := b1.failure_count + 1 }
      if b2.failure_count ≥ b2.config.failure_threshold then
        b2.transition now .OPEN
      else b2
  | .HALF_OPEN => b1.transition now .OPEN
  | .OPEN => b1

/-! ## Task lifecycle (`app.py`)

Timestamps (`datetime.now().isoformat()`) are modelled as rationals
supplied at each mutation point.  `TASK_STORE` is an association list
from task id to task. -/

/-- Task lifecycle states (`TaskStatus`). -/
inductive TaskStatus where
  | SUBMITTED : TaskStatus
  | WORKING : TaskStatus
  | COMPLETED : TaskStatus
  | FAILED : TaskStatus
  | CANCELED : TaskStatus
deriving DecidableEq, Repr

/-- A streamed `MetricEntry`.  Field values are taken verbatim from the
structured payload (missing `source`/`metric` default to the string
`"unknown"`, the optional temporal fields to `None`). -/
structure MetricEntry where
  source : JVal
  metric : JVal
  value : JVal
  timestamp : ℚ
  end_date : JVal
  fiscal_year : JVal
  form : JVal

/-- One task record.  `message` and `artifacts` keep the raw JSON
shapes the handlers store; `pmetrics` models the `partial_metrics`
list. -/
structure ResearchTask where
  id : String
  status : TaskStatus
  message : Option JVal
  artifacts : Option (List JVal)
  pmetrics : Option (List MetricEntry)
  error : Option String
  created_at : ℚ
  updated_at : ℚ

/-- A fresh task as created by `handle_message_send`: SUBMITTED, with an
empty `partial_metrics` list and both timestamps set to `now`. -/
def newTask (id : String) (message : JVal) (now : ℚ) : ResearchTask :=
  { id := id, status := .SUBMITTED, message := some message,
    artifacts := none, pmetrics := some [], error := none,
    created_at := now, updated_at := now }

/-- `handle_tasks_cancel` on a task that was found in the store: status
becomes CANCELED (and `updated_at` refreshed) only when the task is
SUBMITTED or WORKING; terminal tasks are returned unchanged. -/
def cancelTask (t : ResearchTask) (now : ℚ) : ResearchTask :=
  if t.status = .SUBMITTED ∨ t.status = .WORKING then
    { t with status := .CANCELED, updated_at := now }
  else t

/-- The start of `process_research_task`: unconditionally sets the task
to WORKING and refreshes `updated_at`. -/
def startResearch (t : ResearchTask) (now : ℚ) : ResearchTask :=
  { t with status := .WORKING, updated_at := now }

/-- The end of `process_research_task` when `fetch_all_research_data`
returned `result`: stores the artifact wrapper, sets status COMPLETED
and refreshes `updated_at` — with no check of the current status. -/
def finishResearchSuccess (t : ResearchTask) (result : JVal) (now : ℚ) :
    ResearchTask :=
  { t with
    artifacts := some [JVal.obj
      [("type", .str "data"), ("mimeType", .str "application/json"),
       ("data", result)]],
    status := .COMPLETED, updated_at := now }

/-- The end of `process_research_task` when `fetch_all_research_data`
raised `e`: sets status FAILED, stores the error and refreshes
`updated_at` — again unconditionally. -/
def finishResearchFailure (t : ResearchTask) (e : String) (now : ℚ) :
    ResearchTask :=
  { t with status := .FAILED, error := some e, updated_at := now }

/-- The task store: an association list keyed by task id. -/
def TaskStore : Type := List (String × ResearchTask)

/-- Store lookup (`TASK_STORE.get(task_id)`). -/
def storeGet (store : TaskStore) (id : String) : Option ResearchTask :=
  match store with
  | [] => none
  | (k, t) :: rest => if k = id then some t else storeGet rest id

/-- Store update of an existing id (in-place field mutation of the task
object in Python). -/
def storeSet (store : TaskStore) (id : String) (t : ResearchTask) :
    TaskStore :=
  match store with
  | [] => []
  | (k, u) :: rest =>
      if k = id then (k, t) :: rest else (k, u) :: storeSet rest id t

/-- The `MetricEntry` constructed by the progress callback from a
structured payload at receive time `now`. -/
def mkMetricEntry (payload : List (String × JVal)) (now : ℚ) :
    MetricEntry :=
  { source := (jlookup "source" payload).getD (.str "unknown"),
    metric := (jlookup "metric" payload).getD (.str "unknown"),
    value := (jlookup "value" payload).getD .null,
    timestamp := now,
    end_date := (jlookup "end_date" payload).getD .null,
    fiscal_year := (jlookup "fiscal_year" payload).getD .null,
    form := (jlookup "form" payload).getD .null }

/-- The callback produced by `create_progress_callback(task_id)`,
delivering one structured metric payload at receive time `now`: if the
task exists and is WORKING, append one `MetricEntry` to its
`partial_metrics` (initialising the list if it is `None`) and refresh
`updated_at`; otherwise do nothing. -/
def progressCallback (task_id : String) (payload : List (String × JVal))
    (now : ℚ) (store : TaskStore) : TaskStore :=
  match storeGet store task_id with
  | none => store
  | some task =>
      if task.status = .WORKING then
        storeSet store task_id
          { task with
            pmetrics := some ((task.pmetrics.getD []) ++ [mkMetricEntry payload now]),
            updated_at := now }
      else store

/-! ## Schema normalizers (`mcp_client.py`)

Each normalizer mirrors the corresponding `_normalize_*` function.
Steps that can raise in Python (`.get` on a non-dict, `in` on a
non-container) are sequenced in the evaluation order of the source. -/

/-- Helper: `.get(k)` on a value already known to be a dict, with a
`None` default. -/
def dget (fs : List (String × JVal)) (k : String) : JVal :=
  (jlookup k fs).getD .null

/-- `_normalize_volatility`. -/
def normalizeVolatility (raw : JVal) : Except String JVal := do
  if raw.falsy then return raw
  let hasErr ← pyIn "error" raw
  if hasErr then return raw
  let metrics ← pyGet raw "metrics" (.obj [])
  let vix ← pyGet metrics "vix" (.obj [])
  let vxn ← pyGet metrics "vxn" (.obj [])
  let beta ← pyGet metrics "beta" (.obj [])
  let hist_vol ← pyGet metrics "historical_volatility" (.obj [])
  let impl_vol ← pyGet metrics "implied_volatility" (.obj [])
  let vixValue ← pyGet vix "value" .null
  let vixAsOf ← pyGet vix "as_of" .null
  let vxnValue ← pyGet vxn "value" .null
  let vxnAsOf ← pyGet vxn "as_of" .null
  let srcVal ← pyGet raw "source" .null
  let asOfVal ← pyGet raw "as_of" .null
  pure (.obj
    [("yahoo_finance", .obj
        [("source", .str "Yahoo Finance"),
         ("data", .obj
            [("beta", beta), ("historical_volatility", hist_vol),
             ("implied_volatility", impl_vol)])]),
     ("market_volatility_context", .obj
        [("vix", .obj [("value", vixValue), ("date", vixAsOf)]),
         ("vxn", .obj [("value", vxnValue), ("date", vxnAsOf)])]),
     ("source", srcVal), ("as_of", asOfVal)])

/-- `_normalize_macro` (renamed: the Python identifier is not a legal
Lean name here). -/
def normalizeMacroData (raw : JVal) : Except String JVal := do
  if raw.falsy then return raw
  let hasErr ← pyIn "error" raw
  if hasErr then return raw
  let metrics ← pyGet raw "metrics" (.obj [])
  let gdp ← pyGet metrics "gdp_growth" (.obj [])
  let cpi ← pyGet metrics "cpi_inflation" (.obj [])
  let unemp ← pyGet metrics "unemployment" (.obj [])
  let interest ← pyGet metrics "interest_rate" (.obj [])
  let gdpValue ← pyGet gdp "value" .null
  let gdpAsOf ← pyGet gdp "as_of" .null
  let cpiValue ← pyGet cpi "value" .null
  let cpiAsOf ← pyGet cpi "as_of" .null
  let unempValue ← pyGet unemp "value" .null
  let unempAsOf ← pyGet unemp "as_of" .null
  let interestValue ← pyGet interest "value" .null
  let interestAsOf ← pyGet interest "as_of" .null
  let gdpFallback ← pyGet gdp "fallback" .null
  let cpiFallback ← pyGet cpi "fallback" .null
  let unempFallback ← pyGet unemp "fallback" .null
  pure (.obj
    [("bea_bls", .obj
        [("source", .str "BEA/BLS"),
         ("data", .obj
            [("gdp_growth", .obj [("value", gdpValue), ("date", gdpAsOf)]),
             ("cpi_inflation", .obj [("value", cpiValue), ("date", cpiAsOf)]),
             ("unemployment", .obj [("value", unempValue), ("date", unempAsOf)])])]),
     ("fred", .obj
        [("source", .str "FRED"),
         ("data", .obj
            [("interest_rate", .obj [("value", interestValue), ("date", interestAsOf)]),
             ("gdp_growth",
               if gdpFallback.falsy then .null
               else .obj [("value", gdpValue), ("date", gdpAsOf)]),
             ("cpi_inflation",
               if cpiFallback.falsy then .null
               else .obj [("value", cpiValue), ("date", cpiAsOf)]),
             ("unemployment",
               if unempFallback.falsy then .null
               else .obj [("value", unempValue), ("date", unempAsOf)])])]),
     ("source", (← pyGet raw "source" .null)),
     ("as_of", (← pyGet raw "as_of" .null))])

/-- `_normalize_valuation`. -/
def normalizeValuation (raw : JVal) : Except String JVal := do
  if raw.falsy then return raw
  let hasErr ← pyIn "error" raw
  if hasErr then return raw
  let sources ← pyGet raw "sources" (.obj [])
  let srcVal ← pyGet raw "source" .null
  let asOfVal ← pyGet raw "as_of" .null
  let base := [("source", srcVal), ("as_of", asOfVal)]
  let hasYf ← pyIn "yahoo_finance" sources
  let fs1 ← if hasYf then do
      let v ← pyGetItem sources "yahoo_finance"
      pure (setKey base "yahoo_finance" v)
    else pure base
  let hasAv ← pyIn "alpha_vantage" sources
  let fs2 ← if hasAv then do
      let v ← pyGetItem sources "alpha_vantage"
      pure (setKey fs1 "alpha_vantage" v)
    else pure fs1
  pure (.obj fs2)

/-- `_normalize_fundamentals`. -/
def normalizeFundamentals (raw : JVal) : Except String JVal := do
  if raw.falsy then return raw
  let hasErr ← pyIn "error" raw
  if hasErr then return raw
  let sources ← pyGet raw "sources" (.obj [])
  let srcVal ← pyGet raw "source" .null
  let asOfVal ← pyGet raw "as_of" .null
  let tickerVal ← pyGet raw "ticker" .null
  let base := [("source", srcVal), ("as_of", asOfVal), ("ticker", tickerVal)]
  let hasSec ← pyIn "sec_edgar" sources
  let fs1 ← if hasSec then do
      let v ← pyGetItem sources "sec_edgar"
      pure (setKey base "sec_edgar" v)
    else pure base
  let hasYf ← pyIn "yahoo_finance" sources
  let fs2 ← if hasYf then do
      let v ← pyGetItem sources "yahoo_finance"
      pure (setKey fs1 "yahoo_finance" v)
    else pure fs1
  pure (.obj fs2)

/-! ## Metric extraction and emission (`mcp_client.py`)

`_get_nested_value`, `emit_metric` and `_extract_and_emit_metrics`.
The progress callback is the function parameter the Python code
receives; it may itself raise, which is modelled by `Except`.  The
`METRIC_DELAY_MS` sleep is not modelled (time is not observable
here). -/

/-- The progress-callback parameter: receives a structured metric
payload and may raise. -/
def Callback : Type := List (String × JVal) → Except String Unit

/-- `_get_nested_value(data, *keys)`: walks nested dicts, returning
`None` as soon as a non-dict is encountered; never raises. -/
def getNestedValue (data : JVal) : List String → JVal
  | [] => data
  | k :: rest =>
      match data with
      | .obj fs => getNestedValue ((jlookup k fs).getD .null) rest
      | _ => .null

/-- `emit_metric(progress_callback, source, metric, value, end_date,
fiscal_year, form)`: builds the structured payload and invokes the
callback when one is present. -/
def emitMetric (cb : Option Callback) (source metric : String)
    (value end_date fiscal_year form : JVal) : Except String Unit :=
  match cb with
  | none => .ok ()
  | some f =>
      f [("source", .str source), ("metric", .str metric),
         ("value", value), ("end_date", end_date),
         ("fiscal_year", fiscal_year), ("form", form)]

/-- The `source == "fundamentals"` branch of
`_extract_and_emit_metrics`. -/
def emitFundamentalsMetrics (cb : Option Callback) (result : JVal) :
    Except String Unit := do
  let sec_data := pyOr (getNestedValue result ["sec_edgar", "data"]) (.obj [])
  let yf_data := pyOr (getNestedValue result ["yahoo_finance", "data"]) (.obj [])
  -- revenue = sec_data.get("revenue") or yf_data.get("revenue") or {}
  let a1 ← pyGet sec_data "revenue" .null
  let revenue ← if a1.falsy then do
      let b1 ← pyGet yf_data "revenue" .null
      pure (pyOr b1 (.obj []))
    else pure a1
  match revenue with
  | .obj rfs =>
      if !(dget rfs "value").falsy then
        emitMetric cb "fundamentals" "revenue" (dget rfs "value")
          (dget rfs "end_date") (dget rfs "fiscal_year") (dget rfs "form")
      else pure ()
  | .num q => emitMetric cb "fundamentals" "revenue" (.num q) .null .null .null
  | .bool b => emitMetric cb "fundamentals" "revenue" (.bool b) .null .null .null
  | _ => pure ()
  -- net_margin = sec_data.get("net_margin_pct") or yf_data.get("net_margin_pct") or {}
  let a2 ← pyGet sec_data "net_margin_pct" .null
  let net_margin ← if a2.falsy then do
      let b2 ← pyGet yf_data "net_margin_pct" .null
      pure (pyOr b2 (.obj []))
    else pure a2
  match net_margin with
  | .obj rfs =>
      if !(dget rfs "value").isNull then
        emitMetric cb "fundamentals" "net_margin" (dget rfs "value")
          (dget rfs "end_date") (dget rfs "fiscal_year") (dget rfs "form")
      else pure ()
  | .num q => emitMetric cb "fundamentals" "net_margin" (.num q) .null .null .null
  | .bool b => emitMetric cb "fundamentals" "net_margin" (.bool b) .null .null .null
  | _ => pure ()
  -- eps = sec_data.get("eps") or yf_data.get("eps") or {}
  let a3 ← pyGet sec_data "eps" .null
  let eps ← if a3.falsy then do
      let b3 ← pyGet yf_data "eps" .null
      pure (pyOr b3 (.obj []))
    else pure a3
  match eps with
  | .obj rfs =>
      if !(dget rfs "value").falsy then
        emitMetric cb "fundamentals" "EPS" (dget rfs "value")
          (dget rfs "end_date") (dget rfs "fiscal_year") (dget rfs "form")
      else pure ()
  | .num q => emitMetric cb "fundamentals" "EPS" (.num q) .null .null .null
  | .bool b => emitMetric cb "fundamentals" "EPS" (.bool b) .null .null .null
  | _ => pure ()
  -- debt_to_equity = sec_data.get("debt_to_equity") or yf_data.get("debt_to_equity")
  let a4 ← pyGet sec_data "debt_to_equity" .null
  let debt_to_equity ← if a4.falsy then pyGet yf_data "debt_to_equity" .null
    else pure a4
  match debt_to_equity with
  | .obj rfs =>
      if !(dget rfs "value").isNull then
        emitMetric cb "fundamentals" "debt_to_equity" (dget rfs "value")
          (dget rfs "end_date") (dget rfs "fiscal_year") (dget rfs "form")
      else pure ()
  | .num q => emitMetric cb "fundamentals" "debt_to_equity" (.num q) .null .null .null
  | .bool b => emitMetric cb "fundamentals" "debt_to_equity" (.bool b) .null .null .null
  | _ => pure ()

/-- The `source == "volatility"` branch of
`_extract_and_emit_metrics`. -/
def emitVolatilityMetrics (cb : Option Callback) (result : JVal) :
    Except String Unit := do
  let yf_data := pyOr (getNestedValue result ["yahoo_finance", "data"]) (.obj [])
  let av_data := pyOr (getNestedValue result ["alpha_vantage", "data"]) (.obj [])
  let mc ← pyGet result "market_volatility_context" .null
  let market_ctx := pyOr mc (.obj [])
  -- vix = market_ctx.get("vix") or {}
  let v1 ← pyGet market_ctx "vix" .null
  let vix := pyOr v1 (.obj [])
  match vix with
  | .obj vfs =>
      if !(dget vfs "value").isNull then
        emitMetric cb "volatility" "VIX" (dget vfs "value") .null .null .null
      else pure ()
  | _ => pure ()
  -- beta = yf_data.get("beta") or av_data.get("beta")
  let b1 ← pyGet yf_data "beta" .null
  let beta ← if b1.falsy then pyGet av_data "beta" .null else pure b1
  match beta with
  | .obj bfs =>
      if !(dget bfs "value").isNull then
        emitMetric cb "volatility" "beta" (dget bfs "value") .null .null .null
      else pure ()
  | .num q => emitMetric cb "volatility" "beta" (.num q) .null .null .null
  | .bool b => emitMetric cb "volatility" "beta" (.bool b) .null .null .null
  | _ => pure ()
  -- hist_vol = yf_data.get("historical_volatility") or av_data.get("historical_volatility")
  let h1 ← pyGet yf_data "historical_volatility" .null
  let hist_vol ← if h1.falsy then pyGet av_data "historical_volatility" .null
    else pure h1
  match hist_vol with
  | .obj hfs =>
      if !(dget hfs "value").isNull then
        emitMetric cb "volatility" "hist_vol" (dget hfs "value") .null .null .null
      else pure ()
  | .num q => emitMetric cb "volatility" "hist_vol" (.num q) .null .null .null
  | .bool b => emitMetric cb "volatility" "hist_vol" (.bool b) .null .null .null
  | _ => pure ()

/-- The `source == "macro"` branch of `_extract_and_emit_metrics`. -/
def emitMacroMetrics (cb : Option Callback) (result : JVal) :
    Except String Unit := do
  let bea_bls := pyOr (getNestedValue result ["bea_bls", "data"]) (.obj [])
  let fred := pyOr (getNestedValue result ["fred", "data"]) (.obj [])
  -- gdp = bea_bls.get("gdp_growth") or fred.get("gdp_growth") or {}
  let g1 ← pyGet bea_bls "gdp_growth" .null
  let gdp ← if g1.falsy then do
      let g2 ← pyGet fred "gdp_growth" .null
      pure (pyOr g2 (.obj []))
    else pure g1
  match gdp with
  | .obj gfs =>
      if !(dget gfs "value").isNull then
        emitMetric cb "macro" "GDP_growth" (dget gfs "value") .null .null .null
      else pure ()
  | .num q => emitMetric cb "macro" "GDP_growth" (.num q) .null .null .null
  | .bool b => emitMetric cb "macro" "GDP_growth" (.bool b) .null .null .null
  | _ => pure ()
  -- interest = fred.get("interest_rate") or {}
  let i1 ← pyGet fred "interest_rate" .null
  let interest := pyOr i1 (.obj [])
  match interest with
  | .obj ifs =>
      if !(dget ifs "value").isNull then
        emitMetric cb "macro" "interest_rate" (dget ifs "value") .null .null .null
      else pure ()
  | .num q => emitMetric cb "macro" "interest_rate" (.num q) .null .null .null
  | .bool b => emitMetric cb "macro" "interest_rate" (.bool b) .null .null .null
  | _ => pure ()
  -- inflation = bea_bls.get("cpi_inflation") or fred.get("cpi_inflation") or {}
  let c1 ← pyGet bea_bls "cpi_inflation" .null
  let inflation ← if c1.falsy then do
      let c2 ← pyGet fred "cpi_inflation" .null
      pure (pyOr c2 (.obj []))
    else pure c1
  match inflation with
  | .obj cfs =>
      if !(dget cfs "value").isNull then
        emitMetric cb "macro" "inflation" (dget cfs "value") .null .null .null
      else pure ()
  | .num q => emitMetric cb "macro" "inflation" (.num q) .null .null .null
  | .bool b => emitMetric cb "macro" "inflation" (.bool b) .null .null .null
  | _ => pure ()
  -- unemployment = bea_bls.get("unemployment") or fred.get("unemployment") or {}
  let u1 ← pyGet bea_bls "unemployment" .null
  let unemployment ← if u1.falsy then do
      let u2 ← pyGet fred "unemployment" .null
      pure (pyOr u2 (.obj []))
    else pure u1
  match unemployment with
  | .obj ufs =>
      if !(dget ufs "value").isNull then
        emitMetric cb "macro" "unemployment" (dget ufs "value") .null .null .null
      else pure ()
  | .num q => emitMetric cb "macro" "unemployment" (.num q) .null .null .null
  | .bool b => emitMetric cb "macro" "unemployment" (.bool b) .null .null .null
  | _ => pure ()

/-- The `source == "valuation"` branch of
`_extract_and_emit_metrics`. -/
def emitValuationMetrics (cb : Option Callback) (result : JVal) :
    Except String Unit := do
  let yf_data := pyOr (getNestedValue result ["yahoo_finance", "data"]) (.obj [])
  let av_data := pyOr (getNestedValue result ["alpha_vantage", "data"]) (.obj [])
  -- pe_trailing = yf_data.get("trailing_pe") or av_data.get("trailing_pe")
  let p1 ← pyGet yf_data "trailing_pe" .null
  let pe_trailing ← if p1.falsy then pyGet av_data "trailing_pe" .null else pure p1
  if !pe_trailing.isNull then
    emitMetric cb "valuation" "P/E" pe_trailing .null .null .null
  else pure ()
  let q1 ← pyGet yf_data "pb_ratio" .null
  let pb ← if q1.falsy then pyGet av_data "pb_ratio" .null else pure q1
  if !pb.isNull then
    emitMetric cb "valuation" "P/B" pb .null .null .null
  else pure ()
  let r1 ← pyGet yf_data "ps_ratio" .null
  let ps ← if r1.falsy then pyGet av_data "ps_ratio" .null else pure r1
  if !ps.isNull then
    emitMetric cb "valuation" "P/S" ps .null .null .null
  else pure ()
  let e1 ← pyGet yf_data "ev_ebitda" .null
  let ev ← if e1.falsy then pyGet av_data "ev_ebitda" .null else pure e1
  if !ev.isNull then
    emitMetric cb "valuation" "EV/EBITDA" ev .null .null .null
  else pure ()

/-- The `source == "news"` branch of `_extract_and_emit_metrics`. -/
def emitNewsMetrics (cb : Option Callback) (result : JVal) :
    Except String Unit := do
  -- items = result.get("items") or []
  let i1 ← pyGet result "items" .null
  let items := pyOr i1 (.arr [])
  match items with
  | .arr l =>
      if !l.isEmpty then
        emitMetric cb "news" "items_found" (.num l.length) .null .null .null
      else
        emitMetric cb "news" "status" (.str "No recent news found") .null .null .null
  | _ =>
      emitMetric cb "news" "status" (.str "No recent news found") .null .null .null

/-- The `source == "sentiment"` branch of
`_extract_and_emit_metrics`. -/
def emitSentimentMetrics (cb : Option Callback) (result : JVal) :
    Except String Unit := do
  let i1 ← pyGet result "items" .null
  let items := pyOr i1 (.arr [])
  match items with
  | .arr l =>
      if !l.isEmpty then
        emitMetric cb "sentiment" "items_found" (.num l.length) .null .null .null
      else
        emitMetric cb "sentiment" "status" (.str "No sentiment content found") .null .null .null
  | _ =>
      emitMetric cb "sentiment" "status" (.str "No sentiment content found") .null .null .null

/-- `_extract_and_emit_metrics(source, result, progress_callback)`:
returns immediately when there is no callback, the result is falsy, or
the `"error" in result` test succeeds (that test itself raises
`TypeError` on numbers and the like); otherwise dispatches on the
basket name. -/
def extractAndEmitMetrics (cb : Option Callback) (source : String)
    (result : JVal) : Except String Unit := do
  match cb with
  | none => pure ()
  | some _ =>
      if result.falsy then pure ()
      else do
        let hasErr ← pyIn "error" result
        if hasErr then pure ()
        else if source = "fundamentals" then emitFundamentalsMetrics cb result
        else if source = "volatility" then emitVolatilityMetrics cb result
        else if source = "macro" then emitMacroMetrics cb result
        else if source = "valuation" then emitValuationMetrics cb result
        else if source = "news" then emitNewsMetrics cb result
        else if source = "sentiment" then emitSentimentMetrics cb result
        else pure ()

/-! ## Completeness score (`_has_metric`, `_calculate_completeness`) -/

/-- The nested-key fallback loop of `_has_metric`: for each of the keys
`data`, `metrics`, `sec_edgar`, `yahoo_finance` (in order), succeed as
soon as the key maps to a dict that contains `field` — regardless of
the value stored there. -/
def nestedHasField (fs : List (String × JVal)) (field : String) :
    List String → Bool
  | [] => false
  | k :: rest =>
      match jlookup k fs with
      | some (.obj inner) =>
          if (jlookup field inner).isSome then true
          else nestedHasField fs field rest
      | _ => nestedHasField fs field rest

/-- `_has_metric(data, field)`: a top-level field counts when its value
is a dict with a non-`None` `value`, a non-empty list, or any
non-`None` scalar; otherwise the field may still count through the
nested-key fallback. -/
def hasMetric (data : JVal) (field : String) : Bool :=
  match data with
  | .obj fs =>
      match jlookup field fs with
      | some val =>
          match val with
          | .obj vfs => !((jlookup "value" vfs).getD .null).isNull
          | .arr l => !l.isEmpty
          | v => !v.isNull
      | none =>
          nestedHasField fs field ["data", "metrics", "sec_edgar", "yahoo_finance"]
  | _ => false

/-- The fixed `required` table of `_calculate_completeness`. -/
def requiredMetricsTable : List (String × List String) :=
  [("fundamentals", ["revenue", "net_income", "eps", "debt_to_equity"]),
   ("valuation", ["trailing_pe", "pb_ratio", "ps_ratio"]),
   ("volatility", ["beta", "vix"]),
   ("macro", ["gdp_growth", "interest_rate", "cpi_inflation"]),
   ("news", ["items"]),
   ("sentiment", ["items"])]

/-- The inner field loop of `_calculate_completeness`: returns the
number of found fields and the missing fields (in order). -/
def fieldScan (data : JVal) : List String → ℕ × List String
  | [] => (0, [])
  | f :: fs =>
      let (fd, ms) := fieldScan data fs
      if hasMetric data f then (fd + 1, ms) else (fd, f :: ms)

/-- The outer loop of `_calculate_completeness`: total, found and the
per-source missing lists (before dropping empty ones). -/
def completenessScan (metrics : List (String × JVal)) :
    List (String × List String) → ℕ × ℕ × List (String × List String)
  | [] => (0, 0, [])
  | (src, fields) :: rest =>
      let data := (jlookup src metrics).getD (.obj [])
      let (fd, ms) := fieldScan data fields
      let (t2, f2, m2) := completenessScan metrics rest
      (fields.length + t2, fd + f2, (src, ms) :: m2)

/-- Result of `_calculate_completeness`. -/
structure CompletenessResult where
  completeness_pct : ℚ
  metrics_found : ℕ
  metrics_total : ℕ
  missing : List (String × List String)
deriving DecidableEq

/-- Python `round(q, 1)`.  CPython rounds the nearest double
half-to-even; every quotient `found / 14 * 100` reachable here
(`50 * found / 7`) is never a tie at one decimal nor within double
rounding error of one, so floor-based half-up rounding of the exact
rational agrees with it. -/
def pyRound1 (q : ℚ) : ℚ := ((10 * q + 1 / 2).floor : ℤ) / 10

/-- `_calculate_completeness(metrics, sources_available)` (the second
argument is unused in the source as well). -/
def calculateCompleteness (metrics : List (String × JVal))
    (sources_available : List String) : CompletenessResult :=
  let (total, found, missingAll) := completenessScan metrics requiredMetricsTable
  { completeness_pct :=
      if total > 0 then pyRound1 ((found : ℚ) / (total : ℚ) * 100) else 0,
    metrics_found := found,
    metrics_total := total,
    missing := missingAll.filter fun p => !p.2.isEmpty }

/-! ## Aggregated SWOT (`_aggregate_swot`) -/

/-- Accumulators for the four SWOT categories. -/
structure SwotAcc where
  strengths : List JVal
  weaknesses : List JVal
  opportunities : List JVal
  threats : List JVal

/-- One category step: `items = swot.get(category, [])`, and when truthy
`aggregated_swot[category].extend(items)` (extending with a non-iterable
raises `TypeError`). -/
def swotAddCategory (swot : JVal) (cat : String) (cur : List JVal) :
    Except String (List JVal) := do
  let items ← pyGet swot cat (.arr [])
  if items.falsy then pure cur
  else do
    let elems ← pyIterate items
    pure (cur ++ elems)

/-- One source step of `_aggregate_swot`. -/
def aggregateSwotStep (metrics : List (String × JVal)) (acc : SwotAcc)
    (source : String) : Except String SwotAcc := do
  let source_data := (jlookup source metrics).getD (.obj [])
  let swot ← pyGet source_data "swot_summary" (.obj [])
  let s ← swotAddCategory swot "strengths" acc.strengths
  let w ← swotAddCategory swot "weaknesses" acc.weaknesses
  let o ← swotAddCategory swot "opportunities" acc.opportunities
  let t ← swotAddCategory swot "threats" acc.threats
  pure ⟨s, w, o, t⟩

/-- `_aggregate_swot(metrics, sources_available)`. -/
def aggregateSwot (metrics : List (String × JVal))
    (sources_available : List String) : Except String JVal := do
  let acc ← sources_available.foldlM (aggregateSwotStep metrics) ⟨[], [], [], []⟩
  pure (.obj
    [("strengths", .arr acc.strengths), ("weaknesses", .arr acc.weaknesses),
     ("opportunities", .arr acc.opportunities), ("threats", .arr acc.threats)])

/-! ## News/sentiment trimming (`_sort_and_limit_news`,
`_sort_and_limit_sentiment`)

`sorted(items, key=get_date, reverse=True)` is a stable sort computing
one key per element.  It is modelled by Mathlib's stable
`List.insertionSort` on (key, item) pairs.  Key computation mirrors the
Python `get_date` closures exactly (including the `AttributeError` on a
non-dict item).  CPython's timsort compares every adjacent pair, so for
two or more elements heterogeneous keys raise `TypeError`; homogeneous
string keys (the ContentItem case) or numeric keys succeed.  (List- or
dict-valued keys are conservatively modelled as raising; they cannot
arise for ContentItem arrays.) -/

/-- `get_date` inside `_sort_and_limit_news`. -/
def getDateNews (item : JVal) : Except String JVal := do
  let d ← pyGet item "datetime" .null
  let date_str := pyOr d (.str "")
  pure (if date_str.falsy then .str "1970-01-01" else date_str)

/-- `get_date` inside `_sort_and_limit_sentiment`. -/
def getDateSentiment (item : JVal) : Except String JVal := do
  let d ← pyGet item "datetime" .null
  pure (pyOr d (.str "1970-01-01"))

/-- String view of a sort key (only used when all keys are strings). -/
def sortKeyStr (p : JVal × JVal) : String :=
  match p.1 with
  | .str s => s
  | _ => ""

/-- Numeric view of a sort key (only used when all keys are numbers;
bools coerce to 0/1). -/
def sortKeyNum (p : JVal × JVal) : ℚ :=
  match p.1 with
  | .num q => q
  | .bool b => if b then 1 else 0
  | _ => 0

/-- Descending order on string keys (the relation handed to the stable
sort). -/
def descStrRel (p q : JVal × JVal) : Prop := sortKeyStr q ≤ sortKeyStr p

/-- Descending order on numeric keys. -/
def descNumRel (p q : JVal × JVal) : Prop := sortKeyNum q ≤ sortKeyNum p

instance : DecidableRel descStrRel := fun p q =>
  inferInstanceAs (Decidable (sortKeyStr q ≤ sortKeyStr p))

instance : DecidableRel descNumRel := fun p q =>
  inferInstanceAs (Decidable (sortKeyNum q ≤ sortKeyNum p))

instance : IsTotal (JVal × JVal) descStrRel :=
  ⟨fun p q => le_total (sortKeyStr q) (sortKeyStr p)⟩

instance : IsTrans (JVal × JVal) descStrRel :=
  ⟨fun _ _ _ h1 h2 => le_trans h2 h1⟩

instance : IsTotal (JVal × JVal) descNumRel :=
  ⟨fun p q => le_total (sortKeyNum q) (sortKeyNum p)⟩

instance : IsTrans (JVal × JVal) descNumRel :=
  ⟨fun _ _ _ h1 h2 => le_trans h2 h1⟩

/-- `sorted(..., reverse=True)` on precomputed (key, item) pairs. -/
def pySortedDesc (keyed : List (JVal × JVal)) :
    Except String (List JVal) :=
  if keyed.length ≤ 1 then .ok (keyed.map Prod.snd)
  else if keyed.all (fun p => p.1.isStr) then
    .ok ((List.insertionSort descStrRel keyed).map Prod.snd)
  else if keyed.all (fun p => p.1.isNumLike) then
    .ok ((List.insertionSort descNumRel keyed).map Prod.snd)
  else .error "TypeError: unorderable key types"

/-- `_sort_and_limit_news(news_data, limit)`. -/
def sortAndLimitNews (news_data : JVal) (limit : ℕ) :
    Except String JVal := do
  if news_data.falsy then return news_data
  let hasItems ← pyIn "items" news_data
  if !hasItems then return news_data
  let items ← pyGet news_data "items" (.arr [])
  let elems ← pyIterate items
  let keyed ← elems.mapM fun it => do
    let k ← getDateNews it
    pure (k, it)
  let sorted_items ← pySortedDesc keyed
  let n ← pyLen items
  match news_data with
  | .obj fs =>
      let fs1 := setKey fs "items" (.arr (sorted_items.take limit))
      let fs2 := setKey fs1 "total_items" (.num n)
      let fs3 := setKey fs2 "showing" (.num (min limit n))
      pure (.obj fs3)
  | _ => .error "TypeError: item assignment on non-dict"

/-- `_sort_and_limit_sentiment(sentiment_data, limit)`. -/
def sortAndLimitSentiment (sentiment_data : JVal) (limit : ℕ) :
    Except String JVal := do
  if sentiment_data.falsy then return sentiment_data
  let hasItems ← pyIn "items" sentiment_data
  if !hasItems then return sentiment_data
  let items ← pyGet sentiment_data "items" (.arr [])
  let elems ← pyIterate items
  let keyed ← elems.mapM fun it => do
    let k ← getDateSentiment it
    pure (k, it)
  let sorted_items ← pySortedDesc keyed
  let n ← pyLen items
  match sentiment_data with
  | .obj fs =>
      let fs1 := setKey fs "items" (.arr (sorted_items.take limit))
      let fs2 := setKey fs1 "total_items" (.num n)
      let fs3 := setKey fs2 "showing" (.num (min limit n))
      pure (.obj fs3)
  | _ => .error "TypeError: item assignment on non-dict"

/-! ## Conflict markers (`_add_conflict_markers`) -/

/-- The fundamentals metrics compared across SEC EDGAR and Yahoo. -/
def fundConflictMetrics : List String := ["revenue", "net_income", "free_cash_flow"]

/-- The valuation metrics compared across Yahoo and Alpha Vantage. -/
def valConflictMetrics : List String :=
  ["trailing_pe", "forward_pe", "pb_ratio", "ps_ratio"]

/-- The record appended for a detected conflict. -/
def mkConflictRecord (metric : String) (primary secondary : JVal) : JVal :=
  .obj [("metric", .str metric), ("primary_value", primary),
        ("secondary_value", secondary), ("used", .str "primary")]

/-- Single unwrap: `if isinstance(v, dict): v = v.get("value")`. -/
def unwrapValue (v : JVal) : JVal :=
  match v with
  | .obj fs => (jlookup "value" fs).getD .null
  | w => w

/-- The fundamentals loop of `_add_conflict_markers`: the primary value
is unwrapped once, the secondary up to twice; a record is appended when
both unwrapped values are truthy and Python-unequal. -/
def fundConflictScan (sec_data yf_data : JVal) :
    List String → Except String (List JVal)
  | [] => pure []
  | m :: rest => do
      let sv0 ← pyGet sec_data m (.obj [])
      let yv0 ← pyGet yf_data m (.obj [])
      let sv := unwrapValue sv0
      let yv := unwrapValue (unwrapValue yv0)
      let recs ← fundConflictScan sec_data yf_data rest
      pure (if !sv.falsy && !yv.falsy && !pyEq sv yv then
              mkConflictRecord m sv yv :: recs
            else recs)

/-- The valuation loop of `_add_conflict_markers`: values are used as
retrieved (no unwrap); a record is appended when both are truthy and
`abs(yf - av) > 0.5` (the subtraction raises `TypeError` on non-numeric
truthy values). -/
def valConflictScan (yf_data av_data : JVal) :
    List String → Except String (List JVal)
  | [] => pure []
  | m :: rest => do
      let yv ← pyGet yf_data m .null
      let av ← pyGet av_data m .null
      let cond ← if !yv.falsy && !av.falsy then do
          let d ← pySub yv av
          pure (decide (|d| > (1 : ℚ) / 2))
        else pure false
      let recs ← valConflictScan yf_data av_data rest
      pure (if cond then mkConflictRecord m yv av :: recs else recs)

/-- `_add_conflict_markers(fundamentals_all, valuation_all)`. -/
def addConflictMarkers (fundamentals_all valuation_all : JVal) :
    Except String JVal := do
  let fundConflicts ← do
    if !fundamentals_all.falsy then do
      let h1 ← pyIn "sec_edgar" fundamentals_all
      if h1 then do
        let h2 ← pyIn "yahoo_finance" fundamentals_all
        if h2 then do
          let se ← pyGet fundamentals_all "sec_edgar" (.obj [])
          let sec_data ← pyGet se "data" (.obj [])
          let yf ← pyGet fundamentals_all "yahoo_finance" (.obj [])
          let yf_data ← pyGet yf "data" (.obj [])
          fundConflictScan sec_data yf_data fundConflictMetrics
        else pure []
      else pure []
    else pure []
  let valConflicts ← do
    if !valuation_all.falsy then do
      let h1 ← pyIn "yahoo_finance" valuation_all
      if h1 then do
        let h2 ← pyIn "alpha_vantage" valuation_all
        if h2 then do
          let yf ← pyGet valuation_all "yahoo_finance" (.obj [])
          let yf_data ← pyGet yf "data" (.obj [])
          let av ← pyGet valuation_all "alpha_vantage" (.obj [])
          let av_data ← pyGet av "data" (.obj [])
          valConflictScan yf_data av_data valConflictMetrics
        else pure []
      else pure []
    else pure []
  pure (.obj
    [("fundamentals", .obj
        [("primary_source", .str "SEC EDGAR XBRL"),
         ("secondary_source", .str "Yahoo Finance"),
         ("conflicts", .arr fundConflicts)]),
     ("valuation", .obj
        [("primary_source", .str "Yahoo Finance"),
         ("secondary_source", .str "Alpha Vantage"),
         ("conflicts", .arr valConflicts)])])

/-! ## Subprocess tool-response parsing (`call_mcp_server`, lines
266-284)

`json.loads` is the abstract parameter `decode` (returning `none` on a
`json.JSONDecodeError`).  A returned `.error` models an exception that
escapes this fragment (it would be converted to an error payload by the
enclosing `except Exception` handler of `call_mcp_server`). -/

/-- Python string equality test `v == s` for a string literal `s`. -/
def pyEqStrLit (v : JVal) (s : String) : Bool :=
  match v with
  | .str t => t = s
  | _ => false

/-- `json.loads(content.get("text", "\x7b\x7d"))` guarded by
`except json.JSONDecodeError`: a decode failure yields
`{"raw_text": content.get("text", "")}`; a non-string `text` value makes
`json.loads` raise `TypeError`, which that handler does not catch. -/
def decodeTextPart (decode : String → Option JVal) (textVal : Option JVal) :
    Except String JVal :=
  match textVal with
  | some (.str s) =>
      match decode s with
      | some v => .ok v
      | none => .ok (.obj [("raw_text", .str s)])
  | some _ => .error "TypeError: the JSON object must be str"
  | none =>
      match decode "\x7b\x7d" with
      | some v => .ok v
      | none => .ok (.obj [("raw_text", .str "")])

/-- The `for content in content_list` loop: return at the first element
that is a dict whose `type` equals `"text"`; `none` when no element
matches (the caller then returns the raw result). -/
def firstTextScan (decode : String → Option JVal) :
    List JVal → Option (Except String JVal)
  | [] => none
  | c :: rest =>
      match c with
      | .obj cfs =>
          if pyEqStrLit ((jlookup "type" cfs).getD .null) "text" then
            some (decodeTextPart decode (jlookup "text" cfs))
          else firstTextScan decode rest
      | _ => firstTextScan decode rest

/-- The response-processing tail of `call_mcp_server` (after the
`tools/call` response `tool_response` has been received and decoded). -/
def processToolResponse (decode : String → Option JVal)
    (tool_response : List (String × JVal)) : Except String JVal :=
  match jlookup "error" tool_response with
  | some errv =>
      .ok (.obj [("error", .str ("Tool call failed: " ++ pyStr errv))])
  | none =>
      match jlookup "result" tool_response with
      | some result =>
          match result with
          | .obj rfs =>
              match jlookup "content" rfs with
              | some contentVal =>
                  match contentVal with
                  | .arr cl =>
                      if cl.isEmpty then .ok result
                      else
                        match firstTextScan decode cl with
                        | some out => out
                        | none => .ok result
                  | _ => .ok result
              | none => .ok result
          | _ => .ok result
      | none => .ok (.obj [("error", .str "No result in tool response")])

/-! ## The aggregator loop (`fetch_all_research_data`)

Worker invocations are modelled by a per-basket stream
`att : ℕ → Except String JVal`: `att k` is the outcome of the
`(k+1)`-th call of `mcp_func` for that basket (`.error` models the call
raising).  The per-basket iteration is transcribed with the source's
exception flow: an exception anywhere inside the outer `try` (including
the normalizer or `_extract_and_emit_metrics` in the success path, both
of which run after `sources_available.append`) jumps to the
`except` handler, which performs one further invocation; inside that
handler the `else` arm appends to `sources_failed` before evaluating
`result.get("error", e)`, so a non-dict retry value appends the basket
name a second time via the inner `except`.  The second component of
`basketIter` is the number of worker invocations performed. -/

/-- The table `normalizers` of `fetch_all_research_data`. -/
def normalizersFor (name : String) : Option (JVal → Except String JVal) :=
  if name = "fundamentals" then some normalizeFundamentals
  else if name = "valuation" then some normalizeValuation
  else if name = "volatility" then some normalizeVolatility
  else if name = "macro" then some normalizeMacroData
  else none

/-- `if name in normalizers: result = normalizers[name](result)`. -/
def normApply (name : String) (v : JVal) : Except String JVal :=
  match normalizersFor name with
  | none => .ok v
  | some f => f v

/-- Mutable state of the aggregation loop: `sources_available`,
`sources_failed` and `metrics`. -/
structure LoopState where
  avail : List String
  failed : List String
  metrics : List (String × JVal)

/-- The `{"error": str(e), "retried": True}` payload. -/
def errRetried (e : String) : JVal :=
  .obj [("error", .str e), ("retried", .bool true)]

/-- The success path shared by all arms of the loop body: normalize (if
a normalizer is registered), append to `sources_available`, store
`metrics[name]`, then emit metrics.  Returns the mutated state plus the
pending exception if one of these steps raised (state mutations made
before the raise are kept, as in Python). -/
def successPath (cb : Option Callback) (name : String) (r : JVal)
    (s : LoopState) : LoopState × Option String :=
  match normApply name r with
  | .error e => (s, some e)
  | .ok r2 =>
      let s2 : LoopState :=
        { s with avail := s.avail ++ [name],
                 metrics := setKey s.metrics name r2 }
      match extractAndEmitMetrics cb name r2 with
      | .error e => (s2, some e)
      | .ok _ => (s2, none)

/-- The `except Exception as e:` handler of the loop body, with `att2`
the outcome of the one additional invocation it performs and `e` the
caught exception text. -/
def exceptionBranch (cb : Option Callback) (name : String)
    (att2 : Except String JVal) (e : String) (s : LoopState) : LoopState :=
  match att2 with
  | .error e2 =>
      { s with failed := s.failed ++ [name],
               metrics := setKey s.metrics name (errRetried e2) }
  | .ok r =>
      match r with
      | .obj rfs =>
          if (jlookup "error" rfs).isNone then
            match successPath cb name r s with
            | (s2, none) => s2
            | (s2, some e2) =>
                { s2 with failed := s2.failed ++ [name],
                          metrics := setKey s2.metrics name (errRetried e2) }
          else
            { s with failed := s.failed ++ [name],
                     metrics := setKey s.metrics name
                       (.obj [("error", .str (pyStr ((jlookup "error" rfs).getD (.str e)))),
                              ("retried", .bool true)]) }
      | _ =>
          { s with failed := s.failed ++ [name, name],
                   metrics := setKey s.metrics name
                     (errRetried "AttributeError: object has no attribute get") }

/-- One iteration of the `for name, mcp_func in mcp_sequence` loop;
returns the new state and the number of `mcp_func()` invocations. -/
def basketIter (cb : Option Callback) (name : String)
    (att : ℕ → Except String JVal) (s : LoopState) : LoopState × ℕ :=
  match att 0 with
  | .error e => (exceptionBranch cb name (att 1) e s, 2)
  | .ok r =>
      match r with
      | .obj rfs =>
          if (jlookup "error" rfs).isSome then
            match att 1 with
            | .error e => (exceptionBranch cb name (att 2) e s, 3)
            | .ok r2 =>
                match r2 with
                | .obj r2fs =>
                    if (jlookup "error" r2fs).isSome then
                      ({ s with failed := s.failed ++ [name],
                                metrics := setKey s.metrics name
                                  (.obj (setKey r2fs "retried" (.bool true))) }, 2)
                    else
                      match successPath cb name r2 s with
                      | (s2, none) => (s2, 2)
                      | (s2, some e) => (exceptionBranch cb name (att 2) e s2, 3)
                | _ =>
                    match successPath cb name r2 s with
                    | (s2, none) => (s2, 2)
                    | (s2, some e) => (exceptionBranch cb name (att 2) e s2, 3)
          else
            match successPath cb name r s with
            | (s2, none) => (s2, 1)
            | (s2, some e) => (exceptionBranch cb name (att 1) e s2, 2)
      | _ =>
          match successPath cb name r s with
          | (s2, none) => (s2, 1)
          | (s2, some e) => (exceptionBranch cb name (att 1) e s2, 2)

/-- The fixed basket sequence `mcp_sequence`. -/
def mcpSequence : List String :=
  ["fundamentals", "valuation", "volatility", "macro", "news", "sentiment"]

/-- The sequential basket loop. -/
def runBasketLoop (cb : Option Callback)
    (atts : String → ℕ → Except String JVal) :
    List String → LoopState → LoopState
  | [], s => s
  | name :: rest, s =>
      runBasketLoop cb atts rest (basketIter cb name (atts name) s).1

/-- The final research artifact assembled by `fetch_all_research_data`
(`generated_at` is a wall-clock string and is omitted). -/
structure ResearchArtifact where
  ticker : String
  company_name : String
  sources_available : List String
  sources_failed : List String
  metrics : List (String × JVal)
  multi_source : List (String × JVal)
  conflict_resolution : JVal
  aggregated_swot : JVal
  completeness : CompletenessResult

/-- The `if "news" in metrics and "error" not in metrics.get("news",
{})` trimming step after the loop. -/
def newsTrimStep (metrics : List (String × JVal)) :
    Except String (List (String × JVal)) :=
  match jlookup "news" metrics with
  | some nv => do
      let he ← pyIn "error" nv
      if !he then do
        let nv2 ← sortAndLimitNews nv 10
        pure (setKey metrics "news" nv2)
      else pure metrics
  | none => pure metrics

/-- The analogous sentiment trimming step after the loop. -/
def sentTrimStep (metrics : List (String × JVal)) :
    Except String (List (String × JVal)) :=
  match jlookup "sentiment" metrics with
  | some sv => do
      let he ← pyIn "error" sv
      if !he then do
        let sv2 ← sortAndLimitSentiment sv 10
        pure (setKey metrics "sentiment" sv2)
      else pure metrics
  | none => pure metrics

/-- Everything `fetch_all_research_data` does after the basket loop,
as a function of the loop's final state. -/
def fetchTail (ticker company_name : String) (s : LoopState) :
    Except String ResearchArtifact :=
  bind (newsTrimStep s.metrics) (fun metrics1 =>
  bind (sentTrimStep metrics1) (fun metrics2 =>
  bind (addConflictMarkers ((jlookup "fundamentals" metrics2).getD (.obj []))
        ((jlookup "valuation" metrics2).getD (.obj []))) (fun conflict_resolution =>
  bind (aggregateSwot metrics2 s.avail) (fun aggregated_swot =>
  pure
    { ticker := ticker.toUpper,
      company_name := company_name,
      sources_available := s.avail,
      sources_failed := s.failed,
      metrics := metrics2,
      multi_source :=
        [("fundamentals_all", (jlookup "fundamentals" metrics2).getD (.obj [])),
         ("valuation_all", (jlookup "valuation" metrics2).getD (.obj [])),
         ("macro_all", (jlookup "macro" metrics2).getD (.obj [])),
         ("volatility_all", (jlookup "volatility" metrics2).getD (.obj []))],
      conflict_resolution := conflict_resolution,
      aggregated_swot := aggregated_swot,
      completeness := calculateCompleteness metrics2 s.avail }))))

/-- `fetch_all_research_data(ticker, company_name, progress_callback)`,
with worker outcomes supplied by `atts`.  A returned `.error` models an
exception escaping the function (the caller then marks the task
FAILED). -/
def fetchAllResearchData (ticker company_name : String)
    (cb : Option Callback) (atts : String → ℕ → Except String JVal) :
    Except String ResearchArtifact :=
  fetchTail ticker company_name (runBasketLoop cb atts mcpSequence ⟨[], [], []⟩)

/-! ## Statement-side predicates and views

Definitions used only to state the theorems below; each is a direct
view of a definition above. -/

/-- Whether a worker payload is a dict containing an `error` key (the
test `isinstance(result, dict) and "error" in result`). -/
def isErrorPayload (v : JVal) : Bool :=
  match v with
  | .obj fs => (jlookup "error" fs).isSome
  | _ => false

/-- A worker whose returned payloads are always dicts and whose
non-error payloads normalize and emit without raising.  Under this
condition each loop iteration classifies its basket exactly once. -/
def cleanWorker (cb : Option Callback) (name : String)
    (att : ℕ → Except String JVal) : Prop :=
  ∀ i r, att i = Except.ok r →
    r.isDict = true ∧
    (isErrorPayload r = false →
      ∃ r2, normApply name r = Except.ok r2 ∧
        extractAndEmitMetrics cb name r2 = Except.ok ())

/-- The sort key `get_date` computes for a well-formed content item,
as a total function. -/
def contentKey (it : JVal) : String :=
  match it with
  | .obj ifs =>
      match (jlookup "datetime" ifs).getD .null with
      | .str s => if s.isEmpty then "1970-01-01" else s
      | _ => "1970-01-01"
  | _ => "1970-01-01"

/-- A well-formed content item: a dict whose `datetime` (when present
and truthy) is a string.  On these, `get_date` never raises and always
produces a string key. -/
def wfContentItem (it : JVal) : Bool :=
  match it with
  | .obj ifs =>
      match (jlookup "datetime" ifs).getD .null with
      | .str _ => true
      | v => v.falsy
  | _ => false

/-- Lookup in a string-keyed association list of string lists (the
`missing` map of the completeness result). -/
def slookup (k : String) : List (String × List String) → Option (List String)
  | [] => none
  | (k2, v) :: rest => if k2 = k then some v else slookup k rest

/-- The primary (SEC EDGAR) value the fundamentals conflict loop
compares for metric `m`: the raw entry unwrapped once. -/
def fcPrimary (sec : List (String × JVal)) (m : String) : JVal :=
  unwrapValue ((jlookup m sec).getD (.obj []))

/-- The secondary (Yahoo) value the fundamentals conflict loop compares
for metric `m`: the raw entry unwrapped up to twice. -/
def fcSecondary (yf : List (String × JVal)) (m : String) : JVal :=
  unwrapValue (unwrapValue ((jlookup m yf).getD (.obj [])))

/-- The condition under which the fundamentals loop records a conflict
for metric `m`: both compared values truthy and Python-unequal. -/
def fundCondB (sec yf : List (String × JVal)) (m : String) : Bool :=
  !(fcPrimary sec m).falsy && !(fcSecondary yf m).falsy &&
    !pyEq (fcPrimary sec m) (fcSecondary yf m)

/-- The value the valuation conflict loop reads for metric `m`
(`.get(m)`, no unwrap). -/
def vcVal (d : List (String × JVal)) (m : String) : JVal :=
  (jlookup m d).getD .null

/-- Numeric coercion of a scalar (bools are 0/1); used only on values
known to be numeric. -/
def qOf : JVal → ℚ
  | .num q => q
  | .bool b => if b then 1 else 0
  | _ => 0

/-- A value that is numeric or falsy — on such values the valuation
conflict test cannot raise. -/
def numOrFalsy (v : JVal) : Bool := v.isNumLike || v.falsy

/-- The condition under which the valuation loop records a conflict for
metric `m` (on numeric-or-falsy data): both values truthy and farther
apart than `0.5`. -/
def valCondB (yfv av : List (String × JVal)) (m : String) : Bool :=
  !(vcVal yfv m).falsy && !(vcVal av m).falsy &&
    decide (|qOf (vcVal yfv m) - qOf (vcVal av m)| > (1 : ℚ) / 2)

/-- Whether a `content[]` element is a dict whose `type` is `"text"`. -/
def isTextPart (v : JVal) : Bool :=
  match v with
  | .obj cfs => pyEqStrLit ((jlookup "type" cfs).getD .null) "text"
  | _ => false

/-- A task status is terminal. -/
def terminalStatus (st : TaskStatus) : Prop :=
  st = .COMPLETED ∨ st = .FAILED ∨ st = .CANCELED

/-! ## Concrete fixtures for witnesses and counterexamples -/

/-- A CLOSED breaker with default config, four recorded failures and
two recorded successes. -/
def cbClosed4 : CircuitBreaker :=
  { config := defaultCBConfig, state := .CLOSED, failure_count := 4,
    success_count := 2, last_failure_time := none, last_state_change := 0 }

/-- An OPEN breaker with default config whose last failure was at
monotonic time 5. -/
def cbOpen5 : CircuitBreaker :=
  { config := defaultCBConfig, state := .OPEN, failure_count := 5,
    success_count := 0, last_failure_time := some 5, last_state_change := 5 }

/-- A generic task fixture in the given status. -/
def taskIn (id : String) (st : TaskStatus) : ResearchTask :=
  { id := id, status := st, message := none, artifacts := none,
    pmetrics := some [], error := none, created_at := 0, updated_at := 1 }

/-- A sample metric payload. -/
def samplePayload : List (String × JVal) :=
  [("source", .str "macro"), ("metric", .str "GDP_growth"), ("value", .num 2)]

/-- A JSON decoder fixture: decodes only the text `"[1]"`. -/
def decodeFixture : String → Option JVal :=
  fun s => if s = "[1]" then some (.arr [.num 1]) else none

/-- A decoded `tools/call` response whose content has a non-text part
followed by a text part. -/
def toolRespFixture : List (String × JVal) :=
  [("jsonrpc", .str "2.0"), ("id", .num 2),
   ("result", .obj
     [("content", .arr
       [.obj [("type", .str "image")],
        .obj [("type", .str "text"), ("text", .str "[1]")]])])]

/-- Three news items, out of order, one without a datetime. -/
def newsItemsFixture : List JVal :=
  [.obj [("title", .str "a"), ("datetime", .str "2024-01-01")],
   .obj [("title", .str "b"), ("datetime", .str "2025-03-01")],
   .obj [("title", .str "c")]]

/-- A news payload wrapping `newsItemsFixture`. -/
def newsPayloadFixture : JVal := .obj [("items", .arr newsItemsFixture)]

/-- Two sentiment items, out of order. -/
def sentItemsFixture : List JVal :=
  [.obj [("title", .str "p"), ("datetime", .str "2024-06-01"),
         ("subreddit", .str "stocks")],
   .obj [("title", .str "q"), ("datetime", .str "2024-07-01")]]

/-- A sentiment payload wrapping `sentItemsFixture`. -/
def sentPayloadFixture : JVal := .obj [("items", .arr sentItemsFixture)]

/-- A multi-source fundamentals payload in which SEC EDGAR reports
revenue 0 and Yahoo reports revenue 5: both providers supply a scalar,
the values differ, yet no conflict is recorded because `0` is falsy. -/
def fundAllZeroFixture : JVal :=
  .obj [("sec_edgar", .obj [("data", .obj
          [("revenue", .obj [("value", .num 0)])])]),
        ("yahoo_finance", .obj [("data", .obj
          [("revenue", .obj [("value", .num 5)])])])]

/-- SEC EDGAR data dict for the C8 witness. -/
def secDataFixture : List (String × JVal) :=
  [("revenue", .obj [("value", .num 100)]),
   ("net_income", .obj [("value", .num 50)])]

/-- Yahoo fundamentals data dict for the C8 witness (revenue differs,
net income agrees). -/
def yfDataFixture : List (String × JVal) :=
  [("revenue", .obj [("value", .num 110)]),
   ("net_income", .obj [("value", .num 50)])]

/-- Yahoo valuation data dict for the C8 witness. -/
def yfValDataFixture : List (String × JVal) :=
  [("trailing_pe", .num 10), ("pb_ratio", .num 3)]

/-- Alpha Vantage valuation data dict for the C8 witness
(trailing P/E differs by 2, P/B by 0.25). -/
def avValDataFixture : List (String × JVal) :=
  [("trailing_pe", .num 12), ("pb_ratio", .num (13/4))]

/-- A progress callback that never raises. -/
def cbUnit : Callback := fun _ => .ok ()

/-- Worker attempts for the C2 counterexample: first an error payload,
then a JSON array (a non-dict), then a clean payload. -/
def attC2Fixture : ℕ → Except String JVal := fun i =>
  if i = 0 then .ok (.obj [("error", .str "x")])
  else if i = 1 then .ok (.arr [.num 1])
  else .ok (.obj [("items", .arr [])])

/-- Worker attempts for the C2 witness, case (a)/(b): an error payload
then an error payload, and an error payload then a clean payload. -/
def attErrErrFixture : ℕ → Except String JVal := fun _ =>
  .ok (.obj [("error", .str "x"), ("tool", .str "get_all_sources_news")])

/-- Error payload then clean payload. -/
def attErrOkFixture : ℕ → Except String JVal := fun i =>
  if i = 0 then .ok (.obj [("error", .str "x")])
  else .ok (.obj [("items", .arr [])])

/-- Error payload, then a raising retry, then a clean payload. -/
def attErrRaiseFixture : ℕ → Except String JVal := fun i =>
  if i = 0 then .ok (.obj [("error", .str "x")])
  else if i = 1 then .error "boom"
  else .ok (.obj [("items", .arr [])])

/-- Per-basket attempts for the C3 counterexample: the news worker
returns a JSON array first (a truthy non-dict that passes the success
branch and then raises inside metric extraction) and a clean payload on
retry; every other basket fails twice with an error payload. -/
def attsC3Fixture : String → ℕ → Except String JVal := fun name i =>
  if name = "news" then
    (if i = 0 then .ok (.arr [.num 1]) else .ok (.obj [("items", .arr [])]))
  else .ok (.obj [("error", .str "boom")])

/-- Per-basket attempts for the C3 witness: every basket fails twice
with an error payload (dict payloads are always clean). -/
def attsAllErrFixture : String → ℕ → Except String JVal := fun _ _ =>
  .ok (.obj [("error", .str "down")])

/-- A metrics map for the C6 counterexample: exactly one of the 14
required fields (news items) is found. -/
def metricsC6Fixture : List (String × JVal) :=
  [("news", .obj [("items", .arr [.num 1])])]

/-- A metrics map whose fundamentals entry carries a nested `data` dict
with a null `revenue`: the canonical lookup resolves to null, yet
`_has_metric` counts the field as found. -/
def metricsNestedNullFixture : List (String × JVal) :=
  [("fundamentals", .obj [("data", .obj [("revenue", .null)])])]

/-! ## Helper lemmas -/

/-- Looking up the id just written by `storeSet` when it was present. -/
theorem storeGet_storeSet_ne (store : TaskStore) (id id2 : String)
    (t : ResearchTask) (h : id2 ≠ id) :
    storeGet (storeSet store id t) id2 = storeGet store id2 := by
  induction store with
  | nil => rfl
  | cons p rest ih =>
      obtain ⟨k, u⟩ := p
      by_cases hk : k = id
      · subst hk
        have h2 : ¬ (k = id2) := fun hh => h hh.symm
        simp [storeSet, storeGet, h2]
      · by_cases h3 : k = id2
        · simp [storeSet, storeGet, hk, h3, h]
        · simp [storeSet, storeGet, hk, h3, ih]

/-! ## Claim theorems -/

/-- C4 counterexample: a breaker in CLOSED with `failure_count = 4`
receives one more failure and transitions CLOSED → OPEN, yet after the
transition `failure_count` is `5`, not `0` — the CLOSED → OPEN
transition resets neither counter, contradicting the claim that every
state transition resets both counters. -/
theorem C4_counterexample :
    (cbClosed4.record_failure 100).state = .OPEN ∧
    (cbClosed4.record_failure 100).failure_count = 5 ∧
    (cbClosed4.record_failure 100).success_count = 2 ∧
    (5 : ℕ) ≠ 0 ∧ (2 : ℕ) ≠ 0 :=
  ⟨rfl, rfl, rfl, by decide, by decide⟩

/-- C4 amended: `_transition` always moves to the requested state, but
resets both counters only when entering CLOSED, resets `success_count`
alone when entering HALF_OPEN, and resets neither counter when entering
OPEN (a self-transition changes nothing). -/
theorem C4_transition_resets (b : CircuitBreaker) (now : ℚ)
    (new_state : CircuitState) :
    (b.transition now new_state).state = new_state ∧
    (b.transition now new_state).failure_count =
      (if b.state ≠ new_state ∧ new_state = .CLOSED then 0
       else b.failure_count) ∧
    (b.transition now new_state).success_count =
      (if b.state ≠ new_state ∧ (new_state = .CLOSED ∨ new_state = .HALF_OPEN)
       then 0 else b.success_count) := by
  by_cases h : b.state = new_state
  · subst h
    simp [CircuitBreaker.transition]
  · cases new_state <;> simp [CircuitBreaker.transition, h]

/-- C5: while a breaker is OPEN with a recorded (non-zero)
`last_failure_time = t`, `allow_request` at time `now` returns `False`
and leaves the breaker unchanged whenever `now - t` is below
`half_open_timeout`; as soon as `now - t ≥ half_open_timeout`, the call
returns `True` and the breaker transitions to HALF_OPEN. -/
theorem C5_open_gating (b : CircuitBreaker) (now t : ℚ)
    (hs : b.state = .OPEN) (hl : b.last_failure_time = some t)
    (ht : t ≠ 0) :
    (now - t < b.config.half_open_timeout →
      b.allow_request now = (false, b)) ∧
    (now - t ≥ b.config.half_open_timeout →
      (b.allow_request now).1 = true ∧
      (b.allow_request now).2.state = .HALF_OPEN) := by
  constructor
  · intro h
    simp [CircuitBreaker.allow_request, hs, hl, ht, not_le.mpr h]
  · intro h
    have hne : CircuitState.OPEN ≠ CircuitState.HALF_OPEN := by decide
    simp [CircuitBreaker.allow_request, hs, hl, ht, h,
          CircuitBreaker.transition, hne]

/-- C5 witness: a concrete OPEN breaker with `last_failure_time = 5`
and default config; at `now = 20` the request is rejected, at `now = 40`
it is admitted and the breaker is HALF_OPEN. -/
theorem C5_open_gating_witness :
    (cbOpen5.allow_request 20 = (false, cbOpen5)) ∧
    ((cbOpen5.allow_request 40).1 = true ∧
     (cbOpen5.allow_request 40).2.state = .HALF_OPEN) := by
  constructor
  · exact (C5_open_gating cbOpen5 20 5 rfl rfl (by norm_num)).1
      (by norm_num [cbOpen5, defaultCBConfig])
  · exact (C5_open_gating cbOpen5 40 5 rfl rfl (by norm_num)).2
      (by norm_num [cbOpen5, defaultCBConfig])

/-- C1 counterexample: a task canceled while WORKING does not stay
CANCELED — when the background `process_research_task` finishes, it
unconditionally overwrites the status to COMPLETED and attaches
artifacts (there is no cancellation check after
`fetch_all_research_data` returns). -/
theorem C1_counterexample :
    (cancelTask (startResearch (newTask "t" (.obj []) 0) 1) 2).status
      = .CANCELED ∧
    (finishResearchSuccess
        (cancelTask (startResearch (newTask "t" (.obj []) 0) 1) 2)
        (.obj []) 3).status = .COMPLETED ∧
    (finishResearchSuccess
        (cancelTask (startResearch (newTask "t" (.obj []) 0) 1) 2)
        (.obj []) 3).artifacts ≠ none := by
  refine ⟨rfl, rfl, ?_⟩
  simp [finishResearchSuccess]

/-- C1 amended: once a task is terminal it is frozen with respect to
`tasks/cancel` and to progress-callback deliveries (cancel returns the
task unchanged; a metric payload delivered for it changes nothing in
the store) — but not with respect to the background run's final write,
which unconditionally overwrites the task when it completes. -/
theorem C1_terminal_frozen (t : ResearchTask) (now now2 : ℚ)
    (payload : List (String × JVal)) (store : TaskStore) (id : String)
    (hterm : terminalStatus t.status) :
    cancelTask t now = t ∧
    (storeGet store id = some t →
      progressCallback id payload now2 store = store) := by
  constructor
  · rcases hterm with h | h | h <;> simp [cancelTask, h]
  · intro hget
    rcases hterm with h | h | h <;> simp [progressCallback, hget, h]

/-- C1 witness: a concrete CANCELED task in a one-entry store; cancel
leaves it unchanged and a delivered metric payload leaves the store
unchanged. -/
theorem C1_terminal_frozen_witness :
    cancelTask (taskIn "a" .CANCELED) 7 = taskIn "a" .CANCELED ∧
    progressCallback "a" samplePayload 8 [("a", taskIn "a" .CANCELED)] =
      [("a", taskIn "a" .CANCELED)] := by
  have h := C1_terminal_frozen (taskIn "a" .CANCELED) 7 8 samplePayload
    [("a", taskIn "a" .CANCELED)] "a" (Or.inr (Or.inr rfl))
  exact ⟨h.1, h.2 rfl⟩

/-- C10: delivering a structured metric payload through the progress
callback appends exactly one `MetricEntry` (built from the payload) to
the task's `partial_metrics` and refreshes `updated_at`, touching no
other field and no other task, when the task exists and is WORKING; for
a task in any other status, or an unknown id, the store is completely
unchanged. -/
theorem C10_progress_callback_frame (store : TaskStore) (id : String)
    (payload : List (String × JVal)) (now : ℚ) (t : ResearchTask) :
    (storeGet store id = some t → t.status = .WORKING →
      progressCallback id payload now store =
        storeSet store id
          { t with
            pmetrics := some ((t.pmetrics.getD []) ++ [mkMetricEntry payload now]),
            updated_at := now } ∧
      ∀ id2, id2 ≠ id →
        storeGet (progressCallback id payload now store) id2 =
          storeGet store id2) ∧
    (storeGet store id = some t → t.status ≠ .WORKING →
      progressCallback id payload now store = store) ∧
    (storeGet store id = none →
      progressCallback id payload now store = store) := by
  refine ⟨?_, ?_, ?_⟩
  · intro hget hw
    have heq : progressCallback id payload now store =
        storeSet store id
          { t with
            pmetrics := some ((t.pmetrics.getD []) ++ [mkMetricEntry payload now]),
            updated_at := now } := by
      simp [progressCallback, hget, hw]
    refine ⟨heq, ?_⟩
    intro id2 h2
    rw [heq, storeGet_storeSet_ne store id id2 _ h2]
  · intro hget hw
    simp [progressCallback, hget, hw]
  · intro hget
    simp [progressCallback, hget]

/-- C10 witness: a concrete two-task store; a payload delivered for the
WORKING task appends exactly one entry to it and leaves the other task
untouched, and a payload delivered for the CANCELED task changes
nothing. -/
theorem C10_progress_callback_frame_witness :
    progressCallback "w" samplePayload 9
      [("w", taskIn "w" .WORKING), ("c", taskIn "c" .CANCELED)] =
      [("w", { taskIn "w" .WORKING with
               pmetrics := some [mkMetricEntry samplePayload 9],
               updated_at := 9 }),
       ("c", taskIn "c" .CANCELED)] ∧
    storeGet (progressCallback "w" samplePayload 9
      [("w", taskIn "w" .WORKING), ("c", taskIn "c" .CANCELED)]) "c" =
      some (taskIn "c" .CANCELED) ∧
    progressCallback "c" samplePayload 9 [("c", taskIn "c" .CANCELED)] =
      [("c", taskIn "c" .CANCELED)] := by
  have h := (C10_progress_callback_frame
    [("w", taskIn "w" .WORKING), ("c", taskIn "c" .CANCELED)] "w"
    samplePayload 9 (taskIn "w" .WORKING)).1 rfl rfl
  refine ⟨?_, ?_, ?_⟩
  · exact h.1.trans rfl
  · rw [h.2 "c" (by decide)]
    rfl
  · exact (C10_progress_callback_frame [("c", taskIn "c" .CANCELED)] "c"
      samplePayload 9 (taskIn "c" .CANCELED)).2.1 rfl (by decide)

/-- Scanning a content list whose first text part sits after a prefix
of non-text parts stops exactly at that part. -/
theorem firstTextScan_first (decode : String → Option JVal)
    (pre post : List JVal) (cfs : List (String × JVal))
    (hpre : ∀ x ∈ pre, isTextPart x = false)
    (hc : pyEqStrLit ((jlookup "type" cfs).getD .null) "text" = true) :
    firstTextScan decode (pre ++ JVal.obj cfs :: post) =
      some (decodeTextPart decode (jlookup "text" cfs)) := by
  induction pre with
  | nil => simp [firstTextScan, hc]
  | cons x xs ih =>
      have hx := hpre x (List.mem_cons_self x xs)
      have ih2 := ih fun y hy => hpre y (List.mem_cons_of_mem x hy)
      cases x <;> simp_all [firstTextScan, isTextPart]

/-- C9: for a tool response without an `error` member whose result
carries a `content[]` array, the transport returns the JSON decoding of
the text of the first element whose `type` is `"text"`; when that text
does not decode, it returns `{"raw_text": <the text>}` instead of
raising. -/
theorem C9_first_text_decoded (decode : String → Option JVal)
    (resp rfs cfs : List (String × JVal)) (pre post : List JVal)
    (t : String)
    (herr : jlookup "error" resp = none)
    (hres : jlookup "result" resp = some (.obj rfs))
    (hcont : jlookup "content" rfs = some (.arr (pre ++ JVal.obj cfs :: post)))
    (hpre : ∀ x ∈ pre, isTextPart x = false)
    (hc : isTextPart (.obj cfs) = true)
    (htext : jlookup "text" cfs = some (.str t)) :
    processToolResponse decode resp =
      .ok (match decode t with
           | some v => v
           | none => .obj [("raw_text", .str t)]) := by
  have hc2 : pyEqStrLit ((jlookup "type" cfs).getD .null) "text" = true := by
    simpa [isTextPart] using hc
  have hne : (pre ++ JVal.obj cfs :: post).isEmpty = false := by
    simp
  simp only [processToolResponse, herr, hres, hcont, hne,
    Bool.false_eq_true, if_false,
    firstTextScan_first decode pre post cfs hpre hc2]
  simp only [decodeTextPart, htext]
  cases decode t <;> rfl

/-- C9 witness: a concrete response whose content is an image part
followed by a text part with text `"[1]"`; with a decoder that parses
that text the transport returns the decoded array, and with a decoder
that fails on it the transport returns the raw-text wrapper. -/
theorem C9_first_text_decoded_witness :
    processToolResponse decodeFixture toolRespFixture = .ok (.arr [.num 1]) ∧
    processToolResponse (fun _ => none) toolRespFixture =
      .ok (.obj [("raw_text", .str "[1]")]) := by
  constructor
  · exact C9_first_text_decoded decodeFixture toolRespFixture
      [("content", .arr
        [.obj [("type", .str "image")],
         .obj [("type", .str "text"), ("text", .str "[1]")]])]
      [("type", .str "text"), ("text", .str "[1]")]
      [.obj [("type", .str "image")]] [] "[1]"
      rfl rfl rfl (by decide) (by decide) rfl
  · exact C9_first_text_decoded (fun _ => none) toolRespFixture
      [("content", .arr
        [.obj [("type", .str "image")],
         .obj [("type", .str "text"), ("text", .str "[1]")]])]
      [("type", .str "text"), ("text", .str "[1]")]
      [.obj [("type", .str "image")]] [] "[1]"
      rfl rfl rfl (by decide) (by decide) rfl

/-- Reduction of an Except bind on a success value. -/
theorem exceptBind_ok {α β : Type} (x : α) (f : α → Except String β) :
    (bind (Except.ok x) f : Except String β) = f x := rfl

/-- Reduction of an Except bind on an error value. -/
theorem exceptBind_err {α β : Type} (e : String) (f : α → Except String β) :
    (bind (Except.error e) f : Except String β) = Except.error e := rfl

/-- Reduction of pure in the Except monad. -/
theorem exceptPure {α : Type} (x : α) :
    (pure x : Except String α) = Except.ok x := rfl

/-- Looking up the key just written by `setKey`. -/
theorem jlookup_setKey_self (m : List (String × JVal)) (k : String)
    (v : JVal) : jlookup k (setKey m k v) = some v := by
  induction m with
  | nil => simp [setKey, jlookup]
  | cons p rest ih =>
      obtain ⟨k2, w⟩ := p
      by_cases hk : k2 = k
      · simp [setKey, jlookup, hk]
      · simp [setKey, jlookup, hk, ih]

/-- `setKey` does not affect other keys. -/
theorem jlookup_setKey_ne (m : List (String × JVal)) (k k2 : String)
    (v : JVal) (h : k2 ≠ k) :
    jlookup k2 (setKey m k v) = jlookup k2 m := by
  have hne : ¬ (k = k2) := fun hh => h hh.symm
  induction m with
  | nil => simp [setKey, jlookup, hne]
  | cons p rest ih =>
      obtain ⟨k3, w⟩ := p
      by_cases hk : k3 = k
      · subst hk
        simp [setKey, jlookup, hne]
      · simp [setKey, jlookup, hk, ih]

/-- On a well-formed content item, the news `get_date` returns exactly
the string `contentKey` computes. -/
theorem strEmpty_falsy : (JVal.str "").falsy = true := rfl

theorem emptyStr_isEmpty : "".isEmpty = true := rfl

theorem getDateNews_wf (it : JVal) (h : wfContentItem it = true) :
    getDateNews it = .ok (.str (contentKey it)) := by
  cases it with
  | obj ifs =>
      simp only [wfContentItem] at h
      cases hd : (jlookup "datetime" ifs).getD .null with
      | str s =>
          by_cases hs : s.isEmpty <;>
            simp [getDateNews, pyGet, bind, Except.bind, pure, Except.pure,
                  pyOr, JVal.falsy, hd, hs, contentKey, emptyStr_isEmpty]
      | null =>
          rw [hd] at h
          have h2 : (JVal.null).falsy = true := h
          simp [getDateNews, pyGet, bind, Except.bind, pure, Except.pure,
                pyOr, hd, contentKey, h2, strEmpty_falsy, emptyStr_isEmpty]
      | bool b =>
          rw [hd] at h
          have h2 : (JVal.bool b).falsy = true := h
          simp [getDateNews, pyGet, bind, Except.bind, pure, Except.pure,
                pyOr, hd, contentKey, h2, strEmpty_falsy, emptyStr_isEmpty]
      | num q =>
          rw [hd] at h
          have h2 : (JVal.num q).falsy = true := h
          simp [getDateNews, pyGet, bind, Except.bind, pure, Except.pure,
                pyOr, hd, contentKey, h2, strEmpty_falsy, emptyStr_isEmpty]
      | arr l =>
          rw [hd] at h
          have h2 : (JVal.arr l).falsy = true := h
          simp [getDateNews, pyGet, bind, Except.bind, pure, Except.pure,
                pyOr, hd, contentKey, h2, strEmpty_falsy, emptyStr_isEmpty]
      | obj fs2 =>
          rw [hd] at h
          have h2 : (JVal.obj fs2).falsy = true := h
          simp [getDateNews, pyGet, bind, Except.bind, pure, Except.pure,
                pyOr, hd, contentKey, h2, strEmpty_falsy, emptyStr_isEmpty]
  | _ => simp [wfContentItem] at h

/-- On a well-formed content item, the sentiment `get_date` agrees with
`contentKey` as well. -/
theorem getDateSentiment_wf (it : JVal) (h : wfContentItem it = true) :
    getDateSentiment it = .ok (.str (contentKey it)) := by
  cases it with
  | obj ifs =>
      simp only [wfContentItem] at h
      cases hd : (jlookup "datetime" ifs).getD .null with
      | str s =>
          by_cases hs : s.isEmpty <;>
            simp [getDateSentiment, pyGet, bind, Except.bind, pure,
                  Except.pure, pyOr, JVal.falsy, hd, hs, contentKey,
                  emptyStr_isEmpty]
      | null =>
          rw [hd] at h
          have h2 : (JVal.null).falsy = true := h
          simp [getDateSentiment, pyGet, bind, Except.bind, pure,
                Except.pure, pyOr, hd, contentKey, h2]
      | bool b =>
          rw [hd] at h
          have h2 : (JVal.bool b).falsy = true := h
          simp [getDateSentiment, pyGet, bind, Except.bind, pure,
                Except.pure, pyOr, hd, contentKey, h2]
      | num q =>
          rw [hd] at h
          have h2 : (JVal.num q).falsy = true := h
          simp [getDateSentiment, pyGet, bind, Except.bind, pure,
                Except.pure, pyOr, hd, contentKey, h2]
      | arr l =>
          rw [hd] at h
          have h2 : (JVal.arr l).falsy = true := h
          simp [getDateSentiment, pyGet, bind, Except.bind, pure,
                Except.pure, pyOr, hd, contentKey, h2]
      | obj fs2 =>
          rw [hd] at h
          have h2 : (JVal.obj fs2).falsy = true := h
          simp [getDateSentiment, pyGet, bind, Except.bind, pure,
                Except.pure, pyOr, hd, contentKey, h2]
  | _ => simp [wfContentItem] at h

/-- Keying a list of well-formed items with the news `get_date`
succeeds and produces string keys via `contentKey`. -/
theorem mapM_getDateNews (l : List JVal) (h : l.all wfContentItem = true) :
    (l.mapM fun it => do
      let k ← getDateNews it
      pure (k, it)) =
      Except.ok (l.map fun it => (JVal.str (contentKey it), it)) := by
  induction l with
  | nil => rfl
  | cons x xs ih =>
      simp only [List.all_cons, Bool.and_eq_true] at h
      simp only [List.mapM_cons, getDateNews_wf x h.1, ih h.2, List.map_cons]
      rfl

/-- Keying a list of well-formed items with the sentiment `get_date`. -/
theorem mapM_getDateSentiment (l : List JVal)
    (h : l.all wfContentItem = true) :
    (l.mapM fun it => do
      let k ← getDateSentiment it
      pure (k, it)) =
      Except.ok (l.map fun it => (JVal.str (contentKey it), it)) := by
  induction l with
  | nil => rfl
  | cons x xs ih =>
      simp only [List.all_cons, Bool.and_eq_true] at h
      simp only [List.mapM_cons, getDateSentiment_wf x h.1, ih h.2,
        List.map_cons]
      rfl

/-- `pySortedDesc` on all-string keys: succeeds with a permutation of
the input that is pairwise descending in the key. -/
theorem pySortedDesc_str (keyed : List (JVal × JVal))
    (hk : ∀ p ∈ keyed, (p.1).isStr = true) :
    ∃ perm : List (JVal × JVal),
      pySortedDesc keyed = .ok (perm.map Prod.snd) ∧
      perm.Perm keyed ∧ List.Pairwise descStrRel perm := by
  by_cases hlen : keyed.length ≤ 1
  · refine ⟨keyed, ?_, List.Perm.refl _, ?_⟩
    · simp [pySortedDesc, hlen]
    · cases keyed with
      | nil => exact List.Pairwise.nil
      | cons a t =>
          cases t with
          | nil => simp
          | cons b t2 => simp at hlen
  · have hall : keyed.all (fun p => (p.1).isStr) = true := by
      rw [List.all_eq_true]
      exact hk
    refine ⟨List.insertionSort descStrRel keyed, ?_, ?_, ?_⟩
    · simp [pySortedDesc, hlen, hall]
    · exact List.perm_insertionSort descStrRel keyed
    · exact List.sorted_insertionSort descStrRel keyed

/-- C7: for every news or sentiment payload containing an `items` list
of well-formed content items, the trimmed payload's `items` list is
pairwise descending in the `datetime` key, has length at most 10, and
`total_items` records the length of the original (pre-truncation)
list.  Both trimming functions are covered. -/
theorem C7_sort_and_limit (fs sfs : List (String × JVal))
    (l sl : List JVal)
    (hit : jlookup "items" fs = some (.arr l))
    (hwf : l.all wfContentItem = true)
    (hit2 : jlookup "items" sfs = some (.arr sl))
    (hwf2 : sl.all wfContentItem = true) :
    (∃ fs3 l2, sortAndLimitNews (.obj fs) 10 = .ok (.obj fs3) ∧
      jlookup "items" fs3 = some (.arr l2) ∧
      List.Pairwise (fun a b => contentKey b ≤ contentKey a) l2 ∧
      l2.length ≤ 10 ∧
      jlookup "total_items" fs3 = some (.num l.length)) ∧
    (∃ fs3 l2, sortAndLimitSentiment (.obj sfs) 10 = .ok (.obj fs3) ∧
      jlookup "items" fs3 = some (.arr l2) ∧
      List.Pairwise (fun a b => contentKey b ≤ contentKey a) l2 ∧
      l2.length ≤ 10 ∧
      jlookup "total_items" fs3 = some (.num sl.length)) := by
  constructor
  · have hfa : (JVal.obj fs).falsy = false := by
      cases fs with
      | nil => simp [jlookup] at hit
      | cons p rest => simp [JVal.falsy]
    obtain ⟨perm, hsort, hperm, hpair⟩ :=
      pySortedDesc_str (l.map fun it => (JVal.str (contentKey it), it))
        (by
          intro p hp
          obtain ⟨it, _, rfl⟩ := List.mem_map.mp hp
          rfl)
    refine ⟨setKey (setKey (setKey fs "items"
        (.arr ((perm.map Prod.snd).take 10))) "total_items"
        (.num l.length)) "showing" (.num (min 10 l.length)),
      (perm.map Prod.snd).take 10, ?_, ?_, ?_, ?_, ?_⟩
    · simp only [sortAndLimitNews, hfa, Bool.false_eq_true, if_false,
        pyIn, hit, Option.isSome_some, Option.getD_some, pyGet, pyIterate,
        pyLen, exceptBind_ok, Bool.not_true, ite_false]
      rw [mapM_getDateNews l hwf]
      simp only [exceptBind_ok, hsort, exceptPure]
      rfl
    · rw [jlookup_setKey_ne _ _ _ _ (by decide),
          jlookup_setKey_ne _ _ _ _ (by decide),
          jlookup_setKey_self]
    · have hmem : ∀ p ∈ perm, (p.1) = JVal.str (contentKey p.2) := by
        intro p hp
        have := hperm.mem_iff.mp hp
        obtain ⟨it, _, rfl⟩ := List.mem_map.mp this
        rfl
      have hpair2 : List.Pairwise
          (fun a b : JVal × JVal => contentKey b.2 ≤ contentKey a.2) perm := by
        refine hpair.imp_of_mem ?_
        intro a b ha hb hr
        have h1 := hmem a ha
        have h2 := hmem b hb
        simpa [descStrRel, sortKeyStr, h1, h2] using hr
      exact List.Pairwise.sublist (List.take_sublist 10 _)
        (List.pairwise_map.mpr hpair2)
    · simp [List.length_take]
    · rw [jlookup_setKey_ne _ _ _ _ (by decide), jlookup_setKey_self]
  · have hfa : (JVal.obj sfs).falsy = false := by
      cases sfs with
      | nil => simp [jlookup] at hit2
      | cons p rest => simp [JVal.falsy]
    obtain ⟨perm, hsort, hperm, hpair⟩ :=
      pySortedDesc_str (sl.map fun it => (JVal.str (contentKey it), it))
        (by
          intro p hp
          obtain ⟨it, _, rfl⟩ := List.mem_map.mp hp
          rfl)
    refine ⟨setKey (setKey (setKey sfs "items"
        (.arr ((perm.map Prod.snd).take 10))) "total_items"
        (.num sl.length)) "showing" (.num (min 10 sl.length)),
      (perm.map Prod.snd).take 10, ?_, ?_, ?_, ?_, ?_⟩
    · simp only [sortAndLimitSentiment, hfa, Bool.false_eq_true, if_false,
        pyIn, hit2, Option.isSome_some, Option.getD_some, pyGet, pyIterate,
        pyLen, exceptBind_ok, Bool.not_true, ite_false]
      rw [mapM_getDateSentiment sl hwf2]
      simp only [exceptBind_ok, hsort, exceptPure]
      rfl
    · rw [jlookup_setKey_ne _ _ _ _ (by decide),
          jlookup_setKey_ne _ _ _ _ (by decide),
          jlookup_setKey_self]
    · have hmem : ∀ p ∈ perm, (p.1) = JVal.str (contentKey p.2) := by
        intro p hp
        have := hperm.mem_iff.mp hp
        obtain ⟨it, _, rfl⟩ := List.mem_map.mp this
        rfl
      have hpair2 : List.Pairwise
          (fun a b : JVal × JVal => contentKey b.2 ≤ contentKey a.2) perm := by
        refine hpair.imp_of_mem ?_
        intro a b ha hb hr
        have h1 := hmem a ha
        have h2 := hmem b hb
        simpa [descStrRel, sortKeyStr, h1, h2] using hr
      exact List.Pairwise.sublist (List.take_sublist 10 _)
        (List.pairwise_map.mpr hpair2)
    · simp [List.length_take]
    · rw [jlookup_setKey_ne _ _ _ _ (by decide), jlookup_setKey_self]

/-- C7 witness: the concrete news and sentiment fixtures trim to a
descending, at-most-ten list while `total_items` keeps the original
count. -/
theorem C7_sort_and_limit_witness :
    (∃ fs3 l2, sortAndLimitNews newsPayloadFixture 10 = .ok (.obj fs3) ∧
      jlookup "items" fs3 = some (.arr l2) ∧
      List.Pairwise (fun a b => contentKey b ≤ contentKey a) l2 ∧
      l2.length ≤ 10 ∧
      jlookup "total_items" fs3 = some (.num newsItemsFixture.length)) ∧
    (∃ fs3 l2, sortAndLimitSentiment sentPayloadFixture 10 = .ok (.obj fs3) ∧
      jlookup "items" fs3 = some (.arr l2) ∧
      List.Pairwise (fun a b => contentKey b ≤ contentKey a) l2 ∧
      l2.length ≤ 10 ∧
      jlookup "total_items" fs3 = some (.num sentItemsFixture.length)) :=
  C7_sort_and_limit [("items", .arr newsItemsFixture)]
    [("items", .arr sentItemsFixture)] newsItemsFixture sentItemsFixture
    rfl (by decide) rfl (by decide)

/-- The field loop counts every required field exactly once: found
fields plus missing fields add up to the field count. -/
theorem fieldScan_count (data : JVal) (fs : List String) :
    (fieldScan data fs).1 + (fieldScan data fs).2.length = fs.length := by
  induction fs with
  | nil => rfl
  | cons f rest ih =>
      by_cases hm : hasMetric data f <;>
        simp [fieldScan, hm] <;> omega

/-- A field is missing exactly when it is required and `_has_metric`
rejects it. -/
theorem fieldScan_mem (data : JVal) (fs : List String) (f : String) :
    f ∈ (fieldScan data fs).2 ↔ f ∈ fs ∧ hasMetric data f = false := by
  induction fs with
  | nil => simp [fieldScan]
  | cons g rest ih =>
      cases hm : hasMetric data g with
      | true =>
          simp only [fieldScan, hm, if_true, List.mem_cons, ih]
          constructor
          · rintro ⟨hf, hh⟩
            exact ⟨Or.inr hf, hh⟩
          · rintro ⟨hf | hf, hh⟩
            · rw [hf] at hh
              rw [hm] at hh
              cases hh
            · exact ⟨hf, hh⟩
      | false =>
          simp only [fieldScan, hm, Bool.false_eq_true, if_false,
            List.mem_cons, ih]
          constructor
          · rintro (hf | ⟨hf, hh⟩)
            · exact ⟨Or.inl hf, hf ▸ hm⟩
            · exact ⟨Or.inr hf, hh⟩
          · rintro ⟨hf | hf, hh⟩
            · exact Or.inl hf
            · exact Or.inr ⟨hf, hh⟩

/-- The total computed by the completeness scan is the size of the
required table, independent of the data. -/
theorem completenessScan_fst (metrics : List (String × JVal))
    (tbl : List (String × List String)) :
    (completenessScan metrics tbl).1 = (tbl.map fun p => p.2.length).sum := by
  induction tbl with
  | nil => rfl
  | cons p rest ih =>
      obtain ⟨src, fields⟩ := p
      cases hfs : fieldScan ((jlookup src metrics).getD (.obj [])) fields with
      | mk fd ms =>
          cases hrec : completenessScan metrics rest with
          | mk t2 q =>
              simp [completenessScan, hfs, hrec, ← ih]

/-- Found plus missing accounts for the whole scan total. -/
theorem completenessScan_count (metrics : List (String × JVal))
    (tbl : List (String × List String)) :
    (completenessScan metrics tbl).2.1 +
      (((completenessScan metrics tbl).2.2).map fun p => p.2.length).sum =
      (completenessScan metrics tbl).1 := by
  induction tbl with
  | nil => rfl
  | cons p rest ih =>
      obtain ⟨src, fields⟩ := p
      have hcount := fieldScan_count ((jlookup src metrics).getD (.obj [])) fields
      cases hfs : fieldScan ((jlookup src metrics).getD (.obj [])) fields with
      | mk fd ms =>
          cases hrec : completenessScan metrics rest with
          | mk t2 q =>
              obtain ⟨f2, m2⟩ := q
              rw [hfs] at hcount
              simp only [completenessScan, hfs, hrec, List.map_cons,
                List.sum_cons] at *
              omega

/-- Dropping empty missing lists does not change the missing total. -/
theorem filter_missing_sum (ms : List (String × List String)) :
    (((ms.filter fun p => !p.2.isEmpty).map fun p => p.2.length).sum) =
      ((ms.map fun p => p.2.length).sum) := by
  induction ms with
  | nil => rfl
  | cons p rest ih =>
      obtain ⟨k, v⟩ := p
      cases v with
      | nil => simpa [List.filter] using ih
      | cons a t => simp [List.filter, ih]

/-- The scan's missing map has the same keys as the required table. -/
theorem completenessScan_keys (metrics : List (String × JVal))
    (tbl : List (String × List String)) :
    ((completenessScan metrics tbl).2.2).map Prod.fst = tbl.map Prod.fst := by
  induction tbl with
  | nil => rfl
  | cons p rest ih =>
      obtain ⟨src, fields⟩ := p
      cases hfs : fieldScan ((jlookup src metrics).getD (.obj [])) fields with
      | mk fd ms =>
          cases hrec : completenessScan metrics rest with
          | mk t2 q =>
              rw [hrec] at ih
              simp [completenessScan, hfs, hrec, ih]

/-- `slookup` misses keys that are not in the list. -/
theorem slookup_eq_none (k : String) (l : List (String × List String))
    (h : k ∉ l.map Prod.fst) : slookup k l = none := by
  induction l with
  | nil => rfl
  | cons p rest ih =>
      obtain ⟨k2, v⟩ := p
      simp only [List.map_cons, List.mem_cons] at h
      push_neg at h
      have hne : ¬ (k2 = k) := fun hh => h.1 hh.symm
      simp [slookup, hne, ih h.2]

/-- In the scan's missing map, a table entry's missing list is exactly
the field scan of its data (given distinct table keys). -/
theorem completenessScan_slookup (metrics : List (String × JVal))
    (tbl : List (String × List String)) (src : String)
    (fields : List String) (hmem : (src, fields) ∈ tbl)
    (hnd : (tbl.map Prod.fst).Nodup) :
    slookup src ((completenessScan metrics tbl).2.2) =
      some (fieldScan ((jlookup src metrics).getD (.obj [])) fields).2 := by
  induction tbl with
  | nil => cases hmem
  | cons p rest ih =>
      obtain ⟨k2, v⟩ := p
      simp only [List.map_cons, List.nodup_cons] at hnd
      cases hfs : fieldScan ((jlookup k2 metrics).getD (.obj [])) v with
      | mk fd ms =>
          cases hrec : completenessScan metrics rest with
          | mk t2 q =>
              rcases List.mem_cons.mp hmem with heq | hmem2
              · injection heq with h1 h2
                subst h1
                subst h2
                simp [completenessScan, hfs, hrec, slookup]
              · have hk : k2 ≠ src := by
                  intro hh
                  subst hh
                  exact hnd.1 (List.mem_map.mpr ⟨(k2, fields), hmem2, rfl⟩)
                have := ih hmem2 hnd.2
                rw [hrec] at this
                simp [completenessScan, hfs, hrec, slookup, hk, this]

/-- Membership in a lookup over the emptiness-filtered map agrees with
membership in the unfiltered lookup (given distinct keys). -/
theorem slookup_filter_mem (ms : List (String × List String))
    (k : String) (f : String) (hnd : (ms.map Prod.fst).Nodup) :
    (f ∈ (slookup k (ms.filter fun p => !p.2.isEmpty)).getD []) ↔
      f ∈ (slookup k ms).getD [] := by
  induction ms with
  | nil => simp [slookup]
  | cons p rest ih =>
      obtain ⟨k2, v⟩ := p
      simp only [List.map_cons, List.nodup_cons] at hnd
      by_cases hk : k2 = k
      · subst hk
        cases v with
        | nil =>
            have hnone : slookup k2 (rest.filter fun p => !p.2.isEmpty) = none := by
              apply slookup_eq_none
              intro hmem
              apply hnd.1
              obtain ⟨q, hq, hq2⟩ := List.mem_map.mp hmem
              exact List.mem_map.mpr ⟨q, List.mem_of_mem_filter hq, hq2⟩
            simp [List.filter, slookup, hnone]
        | cons a t => simp [List.filter, slookup]
      · cases v with
        | nil => simpa [List.filter, slookup, hk] using ih hnd.2
        | cons a t => simpa [List.filter, slookup, hk] using ih hnd.2

/-- C6 counterexample: a metrics map in which exactly one of the 14
required fields is present (news items).  The returned completeness
percentage is `7.1` — the rounded value — whereas
`100 × found / total = 100/14`, so the percentage does not equal
`100 × found / total` as claimed.  Moreover, on a fundamentals entry
whose nested `data.revenue` is null, `_has_metric` counts `revenue` as
found (it is absent from the missing list) even though its canonical
lookup resolves to null, refuting the claim's characterization of
`missing`. -/
theorem C6_counterexample :
    (calculateCompleteness metricsC6Fixture []).metrics_found = 1 ∧
    (calculateCompleteness metricsC6Fixture []).metrics_total = 14 ∧
    (calculateCompleteness metricsC6Fixture []).completeness_pct = 71 / 10 ∧
    ((71 : ℚ) / 10) ≠ 100 * 1 / 14 ∧
    (hasMetric ((jlookup "fundamentals" metricsNestedNullFixture).getD
        (.obj [])) "revenue" = true ∧
      slookup "fundamentals"
        (calculateCompleteness metricsNestedNullFixture []).missing =
        some ["net_income", "eps", "debt_to_equity"]) := by
  refine ⟨rfl, rfl, ?_, by norm_num, rfl, rfl⟩
  have hscan : completenessScan metricsC6Fixture requiredMetricsTable =
      (14, 1,
        [("fundamentals", ["revenue", "net_income", "eps", "debt_to_equity"]),
         ("valuation", ["trailing_pe", "pb_ratio", "ps_ratio"]),
         ("volatility", ["beta", "vix"]),
         ("macro", ["gdp_growth", "interest_rate", "cpi_inflation"]),
         ("news", []), ("sentiment", ["items"])]) := rfl
  have hfl : ((1007 : ℚ) / 14).floor = 71 := by
    have h1 : (71 : ℤ) ≤ Rat.floor ((1007 : ℚ) / 14) :=
      Rat.le_floor.mpr (by norm_num)
    have h2 : ¬ ((72 : ℤ) ≤ Rat.floor ((1007 : ℚ) / 14)) := by
      intro hh
      have := Rat.le_floor.mp hh
      norm_num at this
    omega
  simp only [calculateCompleteness, hscan, pyRound1]
  norm_num
  rw [hfl]
  norm_num

/-- C6 amended: the accounting identity
`found + Σ len(missing) = total` holds for every metrics map, and the
percentage equals `100 × found / total` rounded to one decimal
(`round(-, 1)`); `missing` enumerates, per basket, exactly the required
fields rejected by `_has_metric` — which counts a field as found when
it merely appears under a nested `data`/`metrics`/`sec_edgar`/
`yahoo_finance` key, even if the value stored there is null, so
"resolved to a non-null value" is not an accurate description of the
code's test. -/
theorem C6_completeness_accounting (metrics : List (String × JVal))
    (sa : List String) :
    ((calculateCompleteness metrics sa).metrics_found +
      (((calculateCompleteness metrics sa).missing).map
        fun p => p.2.length).sum =
      (calculateCompleteness metrics sa).metrics_total) ∧
    ((calculateCompleteness metrics sa).completeness_pct =
      pyRound1 ((((calculateCompleteness metrics sa).metrics_found : ℚ)) /
        (((calculateCompleteness metrics sa).metrics_total : ℚ)) * 100)) ∧
    (∀ src fields, (src, fields) ∈ requiredMetricsTable →
      ∀ f, f ∈ ((slookup src ((calculateCompleteness metrics sa).missing)).getD [])
        ↔ (f ∈ fields ∧
            hasMetric ((jlookup src metrics).getD (.obj [])) f = false)) := by
  have htot : (completenessScan metrics requiredMetricsTable).1 = 14 := by
    rw [completenessScan_fst]
    rfl
  have hkeys := completenessScan_keys metrics requiredMetricsTable
  have hnd : (((completenessScan metrics requiredMetricsTable).2.2).map
      Prod.fst).Nodup := by
    rw [hkeys]
    decide
  cases hscan : completenessScan metrics requiredMetricsTable with
  | mk t q =>
      obtain ⟨fd, ms⟩ := q
      have hcount := completenessScan_count metrics requiredMetricsTable
      rw [hscan] at htot hcount hnd
      simp only at htot hcount hnd
      refine ⟨?_, ?_, ?_⟩
      · simp only [calculateCompleteness, hscan]
        rw [filter_missing_sum]
        exact hcount
      · simp only [calculateCompleteness, hscan, htot]
        norm_num
      · intro src fields hmem f
        have hsl := completenessScan_slookup metrics requiredMetricsTable
          src fields hmem (by decide)
        rw [hscan] at hsl
        simp only at hsl
        simp only [calculateCompleteness, hscan]
        rw [slookup_filter_mem ms src f hnd, hsl]
        simp only [Option.getD_some]
        exact fieldScan_mem _ fields f

/-- C6 witness: the one-found-field fixture instantiates the amended
theorem; in particular its missing map for the news basket is empty and
for valuation lists all three required fields. -/
theorem C6_completeness_accounting_witness :
    ((calculateCompleteness metricsC6Fixture []).metrics_found +
      (((calculateCompleteness metricsC6Fixture []).missing).map
        fun p => p.2.length).sum =
      (calculateCompleteness metricsC6Fixture []).metrics_total) ∧
    (("items" ∈ ((slookup "news"
        ((calculateCompleteness metricsC6Fixture []).missing)).getD []))
      ↔ ("items" ∈ (["items"] : List String) ∧
          hasMetric ((jlookup "news" metricsC6Fixture).getD (.obj []))
            "items" = false)) := by
  have h := C6_completeness_accounting metricsC6Fixture []
  exact ⟨h.1, h.2.2 "news" ["items"] (by decide) "items"⟩

/-- `pySub` on numeric-like values computes the rational difference. -/
theorem pySub_numeric (a b : JVal) (ha : a.isNumLike = true)
    (hb : b.isNumLike = true) : pySub a b = .ok (qOf a - qOf b) := by
  cases a <;> cases b <;> simp_all [JVal.isNumLike] <;> rfl

/-- The fundamentals conflict loop on dict data records, per metric in
order, exactly the metrics whose unwrapped values are both truthy and
Python-unequal. -/
theorem fundConflictScan_spec (sec yf : List (String × JVal))
    (ms : List String) :
    fundConflictScan (.obj sec) (.obj yf) ms =
      .ok (ms.filterMap fun m =>
        if fundCondB sec yf m then
          some (mkConflictRecord m (fcPrimary sec m) (fcSecondary yf m))
        else none) := by
  induction ms with
  | nil => rfl
  | cons m rest ih =>
      simp only [fundConflictScan, pyGet, exceptBind_ok, ih, exceptPure,
        List.filterMap_cons]
      by_cases hc : fundCondB sec yf m
      · simp only [fundCondB, fcPrimary, fcSecondary] at hc
        simp [hc, fundCondB, fcPrimary, fcSecondary]
      · simp only [fundCondB, fcPrimary, fcSecondary] at hc
        rw [Bool.not_eq_true] at hc
        simp [hc, fundCondB, fcPrimary, fcSecondary]

/-- The valuation conflict loop on dict data whose compared values are
numeric or falsy records exactly the metrics whose values are both
truthy and differ by more than 0.5. -/
theorem valConflictScan_spec (yfv av : List (String × JVal))
    (ms : List String)
    (h : ∀ m ∈ ms, numOrFalsy (vcVal yfv m) = true ∧
      numOrFalsy (vcVal av m) = true) :
    valConflictScan (.obj yfv) (.obj av) ms =
      .ok (ms.filterMap fun m =>
        if valCondB yfv av m then
          some (mkConflictRecord m (vcVal yfv m) (vcVal av m))
        else none) := by
  induction ms with
  | nil => rfl
  | cons m rest ih =>
      obtain ⟨h1, h2⟩ := h m (List.mem_cons_self m rest)
      have ih2 := ih fun m2 hm2 => h m2 (List.mem_cons_of_mem m hm2)
      simp only [valConflictScan, pyGet, exceptBind_ok, ih2,
        List.filterMap_cons]
      by_cases hy : (vcVal yfv m).falsy
      · have hcond : valCondB yfv av m = false := by
          simp [valCondB, hy]
        simp [vcVal] at hy
        simp [hy, hcond, exceptPure, exceptBind_ok]
      · by_cases hav : (vcVal av m).falsy
        · have hcond : valCondB yfv av m = false := by
            simp [valCondB, hav]
          simp [vcVal] at hy hav
          simp [hy, hav, hcond, exceptPure, exceptBind_ok]
        · have hyn : (vcVal yfv m).isNumLike = true := by
            rcases Bool.or_eq_true .. |>.mp h1 with hh | hh
            · exact hh
            · exact absurd hh hy
          have havn : (vcVal av m).isNumLike = true := by
            rcases Bool.or_eq_true .. |>.mp h2 with hh | hh
            · exact hh
            · exact absurd hh hav
          have hsub := pySub_numeric _ _ hyn havn
          simp only [vcVal] at hy hav hsub
          simp only [hy, hav, hsub, exceptPure, exceptBind_ok, valCondB,
            vcVal, Bool.not_eq_true] at *
          simp [hy, hav, hsub]
          split <;> rename_i hgt <;> simp [hgt]

/-- C8 counterexample: SEC EDGAR reports revenue `0`, Yahoo reports
revenue `5` — both providers supply a scalar and the values differ by
more than any tolerance — yet the conflicts list is empty, because the
code's truthiness test `if sec_val and yf_val` rejects the zero value.
The claim's "exactly when both providers supply a scalar value and the
two values differ by more than the tolerance" is therefore false. -/
theorem C8_counterexample :
    addConflictMarkers fundAllZeroFixture .null =
      .ok (.obj
        [("fundamentals", .obj
            [("primary_source", .str "SEC EDGAR XBRL"),
             ("secondary_source", .str "Yahoo Finance"),
             ("conflicts", .arr [])]),
         ("valuation", .obj
            [("primary_source", .str "Yahoo Finance"),
             ("secondary_source", .str "Alpha Vantage"),
             ("conflicts", .arr [])])]) ∧
    fcPrimary [("revenue", .obj [("value", .num 0)])] "revenue" = .num 0 ∧
    fcSecondary [("revenue", .obj [("value", .num 5)])] "revenue" = .num 5 ∧
    pyEq (.num 0) (.num 5) = false := by
  refine ⟨rfl, rfl, rfl, by simp [pyEq]⟩

/-- C8 amended: on multi-source payloads of the canonical shape (both
provider entries carrying dict `data`, with valuation values numeric or
falsy), every conflict record has the shape
`{metric, primary_value, secondary_value, used: "primary"}`, and a
record is appended for a metric exactly when both compared values are
truthy (non-null and non-zero — not merely "supplied") and differ: by
Python inequality for fundamentals, by more than 0.5 in absolute value
for valuation. -/
theorem C8_conflict_markers (sec yf yfv av : List (String × JVal))
    (hval : ∀ m ∈ valConflictMetrics, numOrFalsy (vcVal yfv m) = true ∧
      numOrFalsy (vcVal av m) = true) :
    addConflictMarkers
      (.obj [("sec_edgar", .obj [("data", .obj sec)]),
             ("yahoo_finance", .obj [("data", .obj yf)])])
      (.obj [("yahoo_finance", .obj [("data", .obj yfv)]),
             ("alpha_vantage", .obj [("data", .obj av)])]) =
      .ok (.obj
        [("fundamentals", .obj
            [("primary_source", .str "SEC EDGAR XBRL"),
             ("secondary_source", .str "Yahoo Finance"),
             ("conflicts", .arr (fundConflictMetrics.filterMap fun m =>
               if fundCondB sec yf m then
                 some (mkConflictRecord m (fcPrimary sec m) (fcSecondary yf m))
               else none))]),
         ("valuation", .obj
            [("primary_source", .str "Yahoo Finance"),
             ("secondary_source", .str "Alpha Vantage"),
             ("conflicts", .arr (valConflictMetrics.filterMap fun m =>
               if valCondB yfv av m then
                 some (mkConflictRecord m (vcVal yfv m) (vcVal av m))
               else none))])]) ∧
    (∀ r, r ∈ (fundConflictMetrics.filterMap fun m =>
        if fundCondB sec yf m then
          some (mkConflictRecord m (fcPrimary sec m) (fcSecondary yf m))
        else none) →
      ∃ m p s2, r = .obj
        [("metric", .str m), ("primary_value", p),
         ("secondary_value", s2), ("used", .str "primary")]) ∧
    (∀ r, r ∈ (valConflictMetrics.filterMap fun m =>
        if valCondB yfv av m then
          some (mkConflictRecord m (vcVal yfv m) (vcVal av m))
        else none) →
      ∃ m p s2, r = .obj
        [("metric", .str m), ("primary_value", p),
         ("secondary_value", s2), ("used", .str "primary")]) := by
  refine ⟨?_, ?_, ?_⟩
  · simp only [addConflictMarkers, JVal.falsy, Bool.not_eq_true,
      pyIn, jlookup, exceptBind_ok, pyGet, exceptPure,
      fundConflictScan_spec sec yf fundConflictMetrics,
      valConflictScan_spec yfv av valConflictMetrics hval]
    simp [jlookup, exceptBind_ok, exceptPure,
      fundConflictScan_spec sec yf fundConflictMetrics,
      valConflictScan_spec yfv av valConflictMetrics hval]
  · intro r hr
    obtain ⟨m, _, hm2⟩ := List.mem_filterMap.mp hr
    by_cases hc : fundCondB sec yf m
    · rw [if_pos hc] at hm2
      injection hm2 with hm3
      exact ⟨m, _, _, hm3.symm⟩
    · rw [if_neg hc] at hm2
      cases hm2
  · intro r hr
    obtain ⟨m, _, hm2⟩ := List.mem_filterMap.mp hr
    by_cases hc : valCondB yfv av m
    · rw [if_pos hc] at hm2
      injection hm2 with hm3
      exact ⟨m, _, _, hm3.symm⟩
    · rw [if_neg hc] at hm2
      cases hm2

/-- C8 witness: on concrete data, the fundamentals loop records the
revenue disagreement (100 vs 110) but not the agreeing net income, and
the valuation loop records trailing P/E (|10 − 12| > 0.5) but not P/B
(|3 − 3.25| ≤ 0.5); every record carries `used = "primary"`. -/
theorem C8_conflict_markers_witness :
    addConflictMarkers
      (.obj [("sec_edgar", .obj [("data", .obj secDataFixture)]),
             ("yahoo_finance", .obj [("data", .obj yfDataFixture)])])
      (.obj [("yahoo_finance", .obj [("data", .obj yfValDataFixture)]),
             ("alpha_vantage", .obj [("data", .obj avValDataFixture)])]) =
      .ok (.obj
        [("fundamentals", .obj
            [("primary_source", .str "SEC EDGAR XBRL"),
             ("secondary_source", .str "Yahoo Finance"),
             ("conflicts", .arr
               [mkConflictRecord "revenue" (.num 100) (.num 110)])]),
         ("valuation", .obj
            [("primary_source", .str "Yahoo Finance"),
             ("secondary_source", .str "Alpha Vantage"),
             ("conflicts", .arr
               [mkConflictRecord "trailing_pe" (.num 10) (.num 12)])])]) := by
  have h := (C8_conflict_markers secDataFixture yfDataFixture
    yfValDataFixture avValDataFixture (by decide)).1
  refine h.trans ?_
  have h1 : fundCondB secDataFixture yfDataFixture "revenue" = true := by
    simp +decide [fundCondB, fcPrimary, fcSecondary, unwrapValue, jlookup,
      secDataFixture, yfDataFixture, pyEq]
  have h2 : fundCondB secDataFixture yfDataFixture "net_income" = false := by
    simp +decide [fundCondB, fcPrimary, fcSecondary, unwrapValue, jlookup,
      secDataFixture, yfDataFixture, pyEq]
  have h3 : fundCondB secDataFixture yfDataFixture "free_cash_flow" = false := by
    simp +decide [fundCondB, fcPrimary, fcSecondary, unwrapValue, jlookup,
      secDataFixture, yfDataFixture, pyEq]
  have h4 : valCondB yfValDataFixture avValDataFixture "trailing_pe" = true := by
    norm_num [valCondB, vcVal, qOf, jlookup, yfValDataFixture,
      avValDataFixture, abs_sub_lt_iff, JVal.falsy]
  have h5 : valCondB yfValDataFixture avValDataFixture "forward_pe" = false := by
    simp +decide [valCondB, vcVal, qOf, jlookup, JVal.falsy,
      yfValDataFixture, avValDataFixture]
  have h6 : valCondB yfValDataFixture avValDataFixture "pb_ratio" = false := by
    simp +decide only [valCondB, vcVal, qOf, jlookup, JVal.falsy,
      yfValDataFixture, avValDataFixture]
    norm_num
    rw [show |(1 : ℚ) / 4| = 1 / 4 from abs_of_nonneg (by norm_num)]
    norm_num
  have h7 : valCondB yfValDataFixture avValDataFixture "ps_ratio" = false := by
    simp +decide [valCondB, vcVal, qOf, jlookup, JVal.falsy,
      yfValDataFixture, avValDataFixture]
  simp only [fundConflictMetrics, valConflictMetrics, List.filterMap_cons,
    List.filterMap_nil, h1, h2, h3, h4, h5, h6, h7, Bool.false_eq_true,
    if_true, if_false]
  rfl

/-- Inversion of a successful Except bind. -/
theorem bind_ok_inv {α β : Type} (x : Except String α)
    (f : α → Except String β) (b : β) (h : bind x f = .ok b) :
    ∃ a, x = .ok a ∧ f a = .ok b := by
  cases x with
  | error e => cases h
  | ok a => exact ⟨a, rfl, h⟩

/-- Inversion of a successful Except map. -/
theorem map_eq_ok_inv {α β : Type} (x : Except String α) (f : α → β)
    (b : β) (h : x.map f = .ok b) : ∃ a, x = .ok a ∧ f a = b := by
  cases x with
  | error e => cases h
  | ok a =>
      refine ⟨a, rfl, ?_⟩
      injection h with h2

/-- C2 counterexample: the news worker's first invocation returns an
error payload, so the claim demands exactly one additional invocation
(two calls in total).  But the retry returns a JSON array — a truthy
non-dict that passes the `isinstance(result, dict) and "error" in
result` test, is appended to `sources_available`, and then raises
`AttributeError` inside `_extract_and_emit_metrics` — which lands in
the outer `except` handler, and that handler invokes the worker a third
time. -/
theorem C2_counterexample :
    attC2Fixture 0 = .ok (.obj [("error", .str "x")]) ∧
    (basketIter (some cbUnit) "news" attC2Fixture ⟨[], [], []⟩).2 = 3 ∧
    (3 : ℕ) ≠ 2 :=
  ⟨rfl, rfl, by decide⟩

/-- C2 amended: when the first invocation returns an error payload,
(a) a retry that returns another error payload ends the iteration after
exactly two invocations, with the basket in `sources_failed` and
`metrics[basket]` being that second error object with `retried: true`
added; (b) a retry that returns a non-error payload whose normalization
and metric emission succeed ends after exactly two invocations with the
basket in `sources_available`; but (c) a retry that raises falls into
the exception handler, which performs a third invocation. -/
theorem C2_retry_behavior (cb : Option Callback) (name : String)
    (att : ℕ → Except String JVal) (s : LoopState)
    (r1fs r2fs : List (String × JVal)) (r3 : JVal) (e : String) :
    ((att 0 = .ok (.obj r1fs)) → (jlookup "error" r1fs).isSome = true →
     (att 1 = .ok (.obj r2fs)) → (jlookup "error" r2fs).isSome = true →
      basketIter cb name att s =
        ({ s with failed := s.failed ++ [name],
                  metrics := setKey s.metrics name
                    (.obj (setKey r2fs "retried" (.bool true))) }, 2)) ∧
    ((att 0 = .ok (.obj r1fs)) → (jlookup "error" r1fs).isSome = true →
     (att 1 = .ok (.obj r2fs)) → (jlookup "error" r2fs).isSome = false →
     normApply name (.obj r2fs) = .ok r3 →
     extractAndEmitMetrics cb name r3 = .ok () →
      basketIter cb name att s =
        ({ s with avail := s.avail ++ [name],
                  metrics := setKey s.metrics name r3 }, 2)) ∧
    ((att 0 = .ok (.obj r1fs)) → (jlookup "error" r1fs).isSome = true →
     (att 1 = .error e) →
      (basketIter cb name att s).2 = 3) := by
  refine ⟨?_, ?_, ?_⟩
  · intro h0 h0e h1 h1e
    simp [basketIter, h0, h0e, h1, h1e]
  · intro h0 h0e h1 h1e hn hm
    simp [basketIter, h0, h0e, h1, h1e, successPath, hn, hm]
  · intro h0 h0e h1
    simp [basketIter, h0, h0e, h1]

/-- C2 witness: concrete error-then-error, error-then-success and
error-then-raise attempt streams for the news basket with no progress
callback. -/
theorem C2_retry_behavior_witness :
    basketIter none "news" attErrErrFixture ⟨[], [], []⟩ =
      ({ avail := [], failed := ["news"],
         metrics := [("news", .obj
           [("error", .str "x"), ("tool", .str "get_all_sources_news"),
            ("retried", .bool true)])] }, 2) ∧
    basketIter none "news" attErrOkFixture ⟨[], [], []⟩ =
      ({ avail := ["news"], failed := [],
         metrics := [("news", .obj [("items", .arr [])])] }, 2) ∧
    (basketIter none "news" attErrRaiseFixture ⟨[], [], []⟩).2 = 3 := by
  refine ⟨?_, ?_, ?_⟩
  · exact (C2_retry_behavior none "news" attErrErrFixture ⟨[], [], []⟩
      [("error", .str "x"), ("tool", .str "get_all_sources_news")]
      [("error", .str "x"), ("tool", .str "get_all_sources_news")]
      .null "unused").1 rfl rfl rfl rfl
  · exact (C2_retry_behavior none "news" attErrOkFixture ⟨[], [], []⟩
      [("error", .str "x")] [("items", .arr [])]
      (.obj [("items", .arr [])]) "unused").2.1 rfl rfl rfl rfl rfl rfl
  · exact (C2_retry_behavior none "news" attErrRaiseFixture ⟨[], [], []⟩
      [("error", .str "x")] [] .null "boom").2.2 rfl rfl rfl

/-- C3 counterexample: with the news worker first returning a JSON
array (recorded available, then raising during metric extraction) and a
clean payload on retry, while all five other baskets fail twice, the
artifact's `sources_available` contains `news` twice:
`len(sources_available) + len(sources_failed) = 7`, not 6, and the two
lists do not partition the six basket names. -/
theorem C3_counterexample :
    (fetchAllResearchData "tsla" "Tesla" (some cbUnit) attsC3Fixture).map
        (fun a => (a.sources_available, a.sources_failed)) =
      .ok (["news", "news"],
           ["fundamentals", "valuation", "volatility", "macro", "sentiment"]) ∧
    (fetchAllResearchData "tsla" "Tesla" (some cbUnit) attsC3Fixture).map
        (fun a => a.sources_available.length + a.sources_failed.length) =
      .ok 7 ∧
    (7 : ℕ) ≠ 6 :=
  ⟨rfl, rfl, by decide⟩

/-- The success path under a succeeding normalizer and emitter. -/
theorem successPath_clean (cb : Option Callback) (name : String)
    (r r2 : JVal) (s : LoopState) (hn : normApply name r = .ok r2)
    (hm : extractAndEmitMetrics cb name r2 = .ok ()) :
    successPath cb name r s =
      ({ s with avail := s.avail ++ [name],
                metrics := setKey s.metrics name r2 }, none) := by
  simp [successPath, hn, hm]

/-- The exception handler appends the basket name to exactly one of the
two lists when the extra invocation satisfies the clean-worker
condition. -/
theorem exceptionBranch_clean (cb : Option Callback) (name : String)
    (att2 : Except String JVal) (e : String) (s : LoopState)
    (hdict : ∀ r, att2 = .ok r → (r.isDict = true ∧
      (isErrorPayload r = false → ∃ r2, normApply name r = .ok r2 ∧
        extractAndEmitMetrics cb name r2 = .ok ()))) :
    ∃ (flag : Bool) (m : List (String × JVal)),
      exceptionBranch cb name att2 e s =
        ⟨s.avail ++ (if flag then [name] else []),
         s.failed ++ (if flag then [] else [name]), m⟩ := by
  cases att2 with
  | error e2 =>
      refine ⟨false, setKey s.metrics name (errRetried e2), ?_⟩
      simp [exceptionBranch]
  | ok r =>
      obtain ⟨hd, hrest⟩ := hdict r rfl
      match r, hd with
      | .obj rfs, _ =>
          cases hjl : jlookup "error" rfs with
          | none =>
              have hep : isErrorPayload (.obj rfs) = false := by
                simp [isErrorPayload, hjl]
              obtain ⟨r2, hn, hm⟩ := hrest hep
              refine ⟨true, setKey s.metrics name r2, ?_⟩
              simp [exceptionBranch, hjl, successPath_clean cb name _ r2 s hn hm]
          | some v =>
              refine ⟨false, setKey s.metrics name
                (.obj [("error", .str (pyStr ((jlookup "error" rfs).getD (.str e)))),
                       ("retried", .bool true)]), ?_⟩
              simp [exceptionBranch, hjl]

/-- Under the clean-worker condition, one loop iteration appends the
basket name to exactly one of `sources_available` / `sources_failed`. -/
theorem basketIter_clean (cb : Option Callback) (name : String)
    (att : ℕ → Except String JVal) (s : LoopState)
    (hw : cleanWorker cb name att) :
    ∃ (flag : Bool) (m : List (String × JVal)) (c : ℕ),
      (basketIter cb name att s).1 =
        ⟨s.avail ++ (if flag then [name] else []),
         s.failed ++ (if flag then [] else [name]), m⟩ ∧
      (basketIter cb name att s).2 = c := by
  cases h0 : att 0 with
  | error e =>
      obtain ⟨flag, m, hb⟩ := exceptionBranch_clean cb name (att 1) e s
        (fun r hr => hw 1 r hr)
      exact ⟨flag, m, 2, by simp [basketIter, h0, hb], by simp [basketIter, h0]⟩
  | ok r =>
      obtain ⟨hd, hrest⟩ := hw 0 r h0
      match r, hd with
      | .obj rfs, _ =>
          cases hjl : jlookup "error" rfs with
          | some v =>
              cases h1 : att 1 with
              | error e =>
                  obtain ⟨flag, m, hb⟩ := exceptionBranch_clean cb name (att 2) e s
                    (fun r hr => hw 2 r hr)
                  exact ⟨flag, m, 3, by simp [basketIter, h0, hjl, h1, hb],
                    by simp [basketIter, h0, hjl, h1]⟩
              | ok r2 =>
                  obtain ⟨hd2, hrest2⟩ := hw 1 r2 h1
                  match r2, hd2 with
                  | .obj r2fs, _ =>
                      cases hjl2 : jlookup "error" r2fs with
                      | some v2 =>
                          refine ⟨false, setKey s.metrics name
                              (.obj (setKey r2fs "retried" (.bool true))),
                            2, ?_, ?_⟩ <;>
                            simp [basketIter, h0, hjl, h1, hjl2]
                      | none =>
                          have hep : isErrorPayload (.obj r2fs) = false := by
                            simp [isErrorPayload, hjl2]
                          obtain ⟨r3, hn, hm⟩ := hrest2 hep
                          refine ⟨true, setKey s.metrics name r3, 2, ?_, ?_⟩ <;>
                            simp [basketIter, h0, hjl, h1, hjl2,
                              successPath_clean cb name _ r3 s hn hm]
          | none =>
              have hep : isErrorPayload (.obj rfs) = false := by
                simp [isErrorPayload, hjl]
              obtain ⟨r2, hn, hm⟩ := hrest hep
              refine ⟨true, setKey s.metrics name r2, 1, ?_, ?_⟩ <;>
                simp [basketIter, h0, hjl,
                  successPath_clean cb name _ r2 s hn hm]

/-- Under the clean-worker condition the loop appends complementary
sublists whose concatenation is a permutation of the basket list. -/
theorem runBasketLoop_partition (cb : Option Callback)
    (atts : String → ℕ → Except String JVal) (L : List String)
    (s : LoopState) (hc : ∀ n ∈ L, cleanWorker cb n (atts n)) :
    ∃ A F, (runBasketLoop cb atts L s).avail = s.avail ++ A ∧
      (runBasketLoop cb atts L s).failed = s.failed ++ F ∧
      (A ++ F).Perm L := by
  induction L generalizing s with
  | nil =>
      exact ⟨[], [], by simp [runBasketLoop], by simp [runBasketLoop],
        by simp⟩
  | cons name rest ih =>
      obtain ⟨flag, m, c, hb, _⟩ := basketIter_clean cb name (atts name) s
        (hc name (List.mem_cons_self name rest))
      obtain ⟨A, F, hA, hF, hperm⟩ :=
        ih (basketIter cb name (atts name) s).1
          (fun n hn => hc n (List.mem_cons_of_mem name hn))
      have hstep : runBasketLoop cb atts (name :: rest) s =
          runBasketLoop cb atts rest (basketIter cb name (atts name) s).1 := rfl
      rw [hb] at hA hF
      cases flag with
      | true =>
          refine ⟨name :: A, F, ?_, ?_, ?_⟩
          · rw [hstep, hb, hA]
            simp
          · rw [hstep, hb, hF]
            simp
          · exact (List.Perm.cons name hperm)
      | false =>
          refine ⟨A, name :: F, ?_, ?_, ?_⟩
          · rw [hstep, hb, hA]
            simp
          · rw [hstep, hb, hF]
            simp
          · exact List.perm_middle.trans (List.Perm.cons name hperm)

/-- The artifact's source lists are exactly the loop state's lists. -/
theorem fetchAll_sources_eq (ticker company : String)
    (cb : Option Callback) (atts : String → ℕ → Except String JVal)
    (a : ResearchArtifact)
    (h : fetchAllResearchData ticker company cb atts = .ok a) :
    a.sources_available =
      (runBasketLoop cb atts mcpSequence ⟨[], [], []⟩).avail ∧
    a.sources_failed =
      (runBasketLoop cb atts mcpSequence ⟨[], [], []⟩).failed := by
  unfold fetchAllResearchData fetchTail at h
  obtain ⟨m1, hm1, h⟩ := bind_ok_inv _ _ _ h
  obtain ⟨m2, hm2, h⟩ := bind_ok_inv _ _ _ h
  obtain ⟨cr, hcr, h⟩ := bind_ok_inv _ _ _ h
  obtain ⟨sw, hsw, h⟩ := bind_ok_inv _ _ _ h
  injection h with h2
  subst h2
  exact ⟨rfl, rfl⟩

/-- C3 amended: provided every worker response is a JSON object and
non-error responses normalize and emit without raising (the
clean-worker condition — violated by the counterexample's JSON-array
response), every successfully returned artifact satisfies
`len(sources_available) + len(sources_failed) = 6`, the two lists are
disjoint, and together they contain exactly the six basket names. -/
theorem C3_sources_partition (ticker company : String)
    (cb : Option Callback) (atts : String → ℕ → Except String JVal)
    (hc : ∀ n ∈ mcpSequence, cleanWorker cb n (atts n))
    (a : ResearchArtifact)
    (h : fetchAllResearchData ticker company cb atts = .ok a) :
    a.sources_available.length + a.sources_failed.length = 6 ∧
    (∀ n, n ∈ a.sources_available → n ∉ a.sources_failed) ∧
    (∀ n, (n ∈ a.sources_available ∨ n ∈ a.sources_failed) ↔
      n ∈ mcpSequence) := by
  obtain ⟨hav, hfl⟩ := fetchAll_sources_eq ticker company cb atts a h
  obtain ⟨A, F, hA, hF, hperm⟩ :=
    runBasketLoop_partition cb atts mcpSequence ⟨[], [], []⟩ hc
  simp only [] at hA hF
  rw [hav, hfl, hA, hF]
  simp only [List.nil_append]
  have hnd : (A ++ F).Nodup := hperm.symm.nodup (by decide)
  refine ⟨?_, ?_, ?_⟩
  · have := hperm.length_eq
    simp only [List.length_append] at this
    simpa using this
  · intro n hnA hnF
    rw [List.nodup_append] at hnd
    exact hnd.2.2 hnA hnF
  · intro n
    rw [← List.mem_append]
    exact hperm.mem_iff

/-- C3 witness: with every basket failing twice on error payloads (a
clean trace) the artifact partitions the six names: zero available,
six failed. -/
theorem C3_sources_partition_witness :
    (fetchAllResearchData "ko" "Coca-Cola" none attsAllErrFixture).map
      (fun a => a.sources_available.length + a.sources_failed.length) =
      .ok 6 := by
  have hclean : ∀ n ∈ mcpSequence, cleanWorker none n (attsAllErrFixture n) := by
    intro n _ i r hr
    have hr2 : r = .obj [("error", .str "down")] := by
      injection hr.symm with h2
    subst hr2
    refine ⟨rfl, ?_⟩
    intro hep
    simp [isErrorPayload, jlookup] at hep
  have hproj : (fetchAllResearchData "ko" "Coca-Cola" none
      attsAllErrFixture).map
      (fun a => (a.sources_available.length, a.sources_failed.length)) =
      .ok (0, 6) := rfl
  obtain ⟨a, ha, hfa⟩ := map_eq_ok_inv _ _ _ hproj
  have h := C3_sources_partition "ko" "Coca-Cola" none attsAllErrFixture
    hclean a ha
  rw [ha]
  simp only [Except.map]
  rw [h.1]

end Research
